import Mathlib

/-!
# Address resolution of the cluster daemon (`daemon/cluster/listen_addr.go`)

A shallow embedding of `resolveListenAddr`, `resolveAdvertiseAddr`,
`resolveInterfaceAddr` and `resolveSystemAddr`, together with the part of Go's
standard `net` package these functions call.

Conventions of the embedding.

* A Go `string` is a Lean `String`; the `net` parsers work on its list of
  characters. They only ever test for ASCII bytes, and no byte of a multi-byte
  UTF-8 sequence is ASCII, so working on characters and working on bytes agree.
* A `net.IP` value that is not `nil` is the list of its bytes (`net.IP`); a Go
  variable or result of type `net.IP` that may be `nil` is an `Option net.IP`.
  The address table of an interface stores an IP in every `*net.IPNet` it
  reports, so `IPNet.IP` is a `net.IP`.
* A Go `error` is a value of `Error`; the `nil` error is `none`. A function of
  the repository returning `(v, error)` returns a pair, one returning
  `(string, string, error)` a triple, exactly as in the source.
* The operating system is a read-only snapshot `net.Host`: the outcome of
  `net.Interfaces()` and, for every interface, the outcome of its `Addrs()`.
-/

namespace cluster

/-- An error value created by the `net` package (`*net.OpError`, `*net.AddrError`),
with its message. Such a value is never identical to a sentinel error of the
`cluster` package. -/
structure NetError where
  msg : String
  deriving DecidableEq, Repr

/-- Go `error` values that can flow through the resolvers: the sentinel errors of
the package (lines 9-17), the errors built with `fmt.Errorf`, and the errors
handed over by the `net` package. -/
inductive Error where
  | errNoSuchInterface
  | errMultipleIPs
  | errNoIP
  | errMustSpecifyListenAddr
  | errBadListenAddr
  | errBadAdvertiseAddr
  | errBadDefaultAdvertiseAddr
  /-- `fmt.Errorf("could not parse listen address %s", specifiedAddr)` -/
  | couldNotParseListenAddr (specifiedAddr : String)
  /-- `fmt.Errorf("interface %s has more than one IPv4 address", specifiedInterface)` -/
  | moreThanOneIPv4 (specifiedInterface : String)
  /-- `fmt.Errorf("interface %s has more than one IPv6 address", specifiedInterface)` -/
  | moreThanOneIPv6 (specifiedInterface : String)
  /-- `fmt.Errorf("interface %s has no usable IPv4 or IPv6 address", specifiedInterface)` -/
  | noUsableAddr (specifiedInterface : String)
  /-- An error of the `net` package, returned as it is. -/
  | netError (err : NetError)
  deriving DecidableEq, Repr

/-! ## The part of Go's `net` package used by the resolvers

Modelled after the standard library of the Go 1.6/1.7 toolchains, the ones the
vendored tree was built with. Later releases differ in places no statement
below depends on (`SplitHostPort` no longer rejects a `%` outside brackets,
`parseIPv4` rejects a leading zero, `String` prints the bytes of an IP of a
wrong length after the `?`). An index expression is read with `List.getD`; where
the library indexes without testing the length, the length test of the later
releases is kept, so that every function is total. -/

namespace net

/-- A non-nil `net.IP`: its bytes. -/
abbrev IP := List Nat

/-- A `net.IPMask`: its bytes. -/
abbrev IPMask := List Nat

def IPv4len : Nat := 4

def IPv6len : Nat := 16

/-- `net.IPv4(a, b, c, d)`: the 16-byte form of an IPv4 address. -/
def IPv4 (a b c d : Nat) : IP := [0, 0, 0, 0, 0, 0, 0, 0, 0, 0, 0xff, 0xff, a, b, c, d]

def v4InV6Pfx : List Nat := [0, 0, 0, 0, 0, 0, 0, 0, 0, 0, 0xff, 0xff]

def IPv4bcast : IP := IPv4 255 255 255 255

def IPv4zero : IP := IPv4 0 0 0 0

def IPv6unspecified : IP := [0, 0, 0, 0, 0, 0, 0, 0, 0, 0, 0, 0, 0, 0, 0, 0]

def IPv6loopback : IP := [0, 0, 0, 0, 0, 0, 0, 0, 0, 0, 0, 0, 0, 0, 0, 1]

/-- `isZeros(p)`. -/
def isZeros (p : List Nat) : Bool := p.all (fun b => b == 0)

/-- `ip.To4()`: the 4-byte form of an IPv4 address, `nil` (`none`) otherwise. -/
def IP.To4 (ip : IP) : Option IP :=
  if ip.length = IPv4len then some ip
  else if ip.length = IPv6len ∧ isZeros (ip.take 10) = true ∧ ip.getD 10 0 = 0xff
      ∧ ip.getD 11 0 = 0xff then
    some (ip.drop 12)
  else none

/-- `ip.Equal(x)`. -/
def IP.Equal (ip x : IP) : Bool :=
  if ip.length = x.length then decide (ip = x)
  else if ip.length = IPv4len ∧ x.length = IPv6len then
    decide (x.take 12 = v4InV6Pfx) && decide (ip = x.drop 12)
  else if ip.length = IPv6len ∧ x.length = IPv4len then
    decide (ip.take 12 = v4InV6Pfx) && decide (ip.drop 12 = x)
  else false

/-- `ip.IsUnspecified()`. -/
def IP.IsUnspecified (ip : IP) : Bool :=
  ip.Equal IPv4zero || ip.Equal IPv6unspecified

/-- `ip.IsLoopback()`. -/
def IP.IsLoopback (ip : IP) : Bool :=
  match ip.To4 with
  | some ip4 => ip4.getD 0 0 == 127
  | none => ip.Equal IPv6loopback

/-- `ip.IsMulticast()`. -/
def IP.IsMulticast (ip : IP) : Bool :=
  match ip.To4 with
  | some ip4 => Nat.land (ip4.getD 0 0) 0xf0 == 0xe0
  | none => ip.length == IPv6len && ip.getD 0 0 == 0xff

/-- `ip.IsLinkLocalMulticast()`. -/
def IP.IsLinkLocalMulticast (ip : IP) : Bool :=
  match ip.To4 with
  | some ip4 => ip4.getD 0 0 == 224 && ip4.getD 1 0 == 0 && ip4.getD 2 0 == 0
  | none => ip.length == IPv6len && ip.getD 0 0 == 0xff && Nat.land (ip.getD 1 0) 0x0f == 0x02

/-- `ip.IsLinkLocalUnicast()`. -/
def IP.IsLinkLocalUnicast (ip : IP) : Bool :=
  match ip.To4 with
  | some ip4 => ip4.getD 0 0 == 169 && ip4.getD 1 0 == 254
  | none => ip.length == IPv6len && ip.getD 0 0 == 0xfe && Nat.land (ip.getD 1 0) 0xc0 == 0x80

/-- `ip.IsGlobalUnicast()`. -/
def IP.IsGlobalUnicast (ip : IP) : Bool :=
  (ip.length == IPv4len || ip.length == IPv6len) &&
    !ip.Equal IPv4bcast &&
    !ip.IsUnspecified &&
    !ip.IsLoopback &&
    !ip.IsMulticast &&
    !ip.IsLinkLocalUnicast

/-- A `net.IPNet`: an IP and a mask. -/
structure IPNet where
  IP : IP
  Mask : IPMask
  deriving DecidableEq, Repr

/-- `networkNumberAndMask(n)`; the pair `(nil, nil)` is `([], [])`, only the
lengths of the results are ever inspected. -/
def networkNumberAndMask (n : IPNet) : List Nat × List Nat :=
  let ip : List Nat := match n.IP.To4 with
    | some ip4 => ip4
    | none => n.IP
  if n.IP.To4 = none ∧ ip.length ≠ IPv6len then ([], [])
  else if n.Mask.length = IPv4len then
    if ip.length ≠ IPv4len then ([], []) else (ip, n.Mask)
  else if n.Mask.length = IPv6len then
    if ip.length = IPv4len then (ip, n.Mask.drop 12) else (ip, n.Mask)
  else ([], [])

/-- The loop `for i := 0; i < l; i++` of `Contains`, run over the three slices in
step: `false` as soon as a masked byte differs. -/
def maskedEqual : List Nat → List Nat → List Nat → Bool
  | [], _, _ => true
  | x :: ip, nn, m =>
    if Nat.land (nn.getD 0 0) (m.getD 0 0) ≠ Nat.land x (m.getD 0 0) then false
    else maskedEqual ip (nn.drop 1) (m.drop 1)

/-- `n.Contains(ip)`. -/
def IPNet.Contains (n : IPNet) (ip : net.IP) : Bool :=
  let nnm := networkNumberAndMask n
  let ip : List Nat := match ip.To4 with
    | some x => x
    | none => ip
  if ip.length ≠ nnm.1.length then false
  else maskedEqual ip nnm.1 nnm.2

/-- A `net.Addr` reported for an interface: a `*net.IPNet`, or an address of
another dynamic type (such as `*net.IPAddr`). -/
inductive Addr where
  | ipNet (ipAddr : IPNet)
  | ipAddr (ip : List Nat)
  deriving DecidableEq, Repr

/-- `net.FlagUp`. -/
def FlagUp : Nat := 1

/-- `net.FlagLoopback`. -/
def FlagLoopback : Nat := 4

/-- A `net.Interface` together with the outcome of its `Addrs()` call. -/
structure Interface where
  Name : String
  Flags : Nat
  Addrs : Except NetError (List Addr)

/-- The snapshot of the operating system: the outcome of `net.Interfaces()`. -/
structure Host where
  Interfaces : Except NetError (List Interface)

/-- `net.InterfaceByName(name)`. -/
def InterfaceByName (os : Host) (name : String) : Except NetError Interface :=
  if name = "" then .error ⟨"invalid network interface name"⟩
  else
    match os.Interfaces with
    | .error err => .error err
    | .ok ift =>
      match ift.find? (fun ifi => decide (name = ifi.Name)) with
      | some ifi => .ok ifi
      | none => .error ⟨"no such network interface"⟩

/-! ### `net.SplitHostPort` -/

/-- `last(s, b)`: index of the last occurrence of `b` in `s` (`-1` is `none`). -/
def last : List Char → Char → Option Nat
  | [], _ => none
  | c :: s, b =>
    match last s b with
    | some i => some (i + 1)
    | none => if c = b then some 0 else none

/-- `byteIndex(s, c)`: index of the first occurrence of `c` in `s` (`-1` is `none`). -/
def byteIndex : List Char → Char → Option Nat
  | [], _ => none
  | c :: s, b => if c = b then some 0 else (byteIndex s b).map (fun i => i + 1)

/-- The common tail of `SplitHostPort`: with `j` and `k` set, reject a stray
bracket and cut the port after the last colon (at index `i`). -/
def splitTail (hostport host : List Char) (i j k : Nat) : Except NetError (String × String) :=
  if (byteIndex (hostport.drop j) '[').isSome then
    .error ⟨"unexpected '[' in address"⟩
  else if (byteIndex (hostport.drop k) ']').isSome then
    .error ⟨"unexpected ']' in address"⟩
  else .ok (String.mk host, String.mk (hostport.drop (i + 1)))

/-- `net.SplitHostPort(hostport)`, on the characters of `hostport`. -/
def splitHostPortChars (hostport : List Char) : Except NetError (String × String) :=
  match last hostport ':' with
  | none => .error ⟨"missing port in address"⟩
  | some i =>
    if hostport.head? = some '[' then
      match byteIndex hostport ']' with
      | none => .error ⟨"missing ']' in address"⟩
      | some e =>
        if e + 1 = hostport.length then .error ⟨"missing port in address"⟩
        else if e + 1 = i then splitTail hostport ((hostport.take e).drop 1) i 1 (e + 1)
        else if (hostport.drop (e + 1)).head? = some ':' then
          .error ⟨"too many colons in address"⟩
        else .error ⟨"missing port in address"⟩
    else
      let host := hostport.take i
      if (byteIndex host ':').isSome then .error ⟨"too many colons in address"⟩
      else if (byteIndex host '%').isSome then .error ⟨"missing brackets in address"⟩
      else splitTail hostport host i 0 0

/-- `net.SplitHostPort(hostport)`. -/
def SplitHostPort (hostport : String) : Except NetError (String × String) :=
  splitHostPortChars hostport.data

/-! ### `net.ParseIP` -/

/-- The bound `big` of `dtoi` and `xtoi`. -/
def big : Nat := 0xFFFFFF

/-- The loop of `dtoi`: consume decimal digits; `none` when the number reaches `big`. -/
def dtoiLoop : List Char → Nat → Option (Nat × List Char)
  | [], n => some (n, [])
  | c :: s, n =>
    if 48 ≤ c.toNat ∧ c.toNat ≤ 57 then
      if n * 10 + (c.toNat - 48) ≥ big then none
      else dtoiLoop s (n * 10 + (c.toNat - 48))
    else some (n, c :: s)

/-- `dtoi(s)`: the decimal number at the start of `s` and the rest of `s`;
`none` when `ok` is false (no digit, or too big). -/
def dtoi (s : List Char) : Option (Nat × List Char) :=
  match dtoiLoop s 0 with
  | none => none
  | some (n, rest) => if rest.length = s.length then none else some (n, rest)

/-- The value of a hexadecimal digit, `none` for any other character. -/
def hexVal (c : Char) : Option Nat :=
  if 48 ≤ c.toNat ∧ c.toNat ≤ 57 then some (c.toNat - 48)
  else if 97 ≤ c.toNat ∧ c.toNat ≤ 102 then some (c.toNat - 97 + 10)
  else if 65 ≤ c.toNat ∧ c.toNat ≤ 70 then some (c.toNat - 65 + 10)
  else none

/-- The loop of `xtoi`: consume hexadecimal digits; `none` when the number reaches `big`. -/
def xtoiLoop : List Char → Nat → Option (Nat × List Char)
  | [], n => some (n, [])
  | c :: s, n =>
    match hexVal c with
    | some d => if n * 16 + d ≥ big then none else xtoiLoop s (n * 16 + d)
    | none => some (n, c :: s)

/-- `xtoi(s)`: the hexadecimal number at the start of `s` and the rest of `s`;
`none` when `ok` is false. -/
def xtoi (s : List Char) : Option (Nat × List Char) :=
  match xtoiLoop s 0 with
  | none => none
  | some (n, rest) => if rest.length = s.length then none else some (n, rest)

/-- The loop `for j := 0; j < IPv4len; j++` of `parseIPv4`; the first argument
counts the iterations left, `p` holds the octets parsed so far. -/
def parseIPv4Loop : Nat → Nat → List Char → List Nat → Option (List Nat × List Char)
  | 0, _, s, p => some (p, s)
  | k + 1, j, s, p =>
    if s = [] then none
    else if j > 0 ∧ s.head? ≠ some '.' then none
    else
      match dtoi (if j > 0 then s.drop 1 else s) with
      | none => none
      | some (n, rest) => if n > 0xFF then none else parseIPv4Loop k (j + 1) rest (p ++ [n])

/-- `parseIPv4(s)`. -/
def parseIPv4 (s : List Char) : Option IP :=
  match parseIPv4Loop IPv4len 0 s [] with
  | none => none
  | some (p, rest) =>
    if rest ≠ [] then none else some (IPv4 (p.getD 0 0) (p.getD 1 0) (p.getD 2 0) (p.getD 3 0))

/-- The loop `for i < IPv6len` of `parseIPv6`. The state is the bytes written
so far (`ip`, of length `i`), the unparsed rest `s` and the position of the
ellipsis; the result is the state at the loop exit, `none` for `return nil`.
Every iteration that does not leave the loop writes two bytes, so eight
iterations always reach the exit. -/
def parseIPv6Loop : Nat → List Nat → List Char → Option Nat →
    Option (List Nat × List Char × Option Nat)
  | 0, ip, s, ellipsis => some (ip, s, ellipsis)
  | fuel + 1, ip, s, ellipsis =>
    if ¬ ip.length < IPv6len then some (ip, s, ellipsis)
    else
      match xtoi s with
      | none => none
      | some (n, rest) =>
        if n > 0xFFFF then none
        else if rest.head? = some '.' then
          if ellipsis = none ∧ ip.length ≠ IPv6len - IPv4len then none
          else if ip.length + IPv4len > IPv6len then none
          else
            match parseIPv4 s with
            | none => none
            | some ip4 => some (ip ++ ip4.drop 12, [], ellipsis)
        else if rest = [] then some (ip ++ [n / 256 % 256, n % 256], [], ellipsis)
        else if rest.head? ≠ some ':' ∨ rest.length = 1 then none
        else if (rest.drop 1).head? = some ':' then
          if ellipsis ≠ none then none
          else if rest.drop 2 = [] then
            some (ip ++ [n / 256 % 256, n % 256], [], some (ip.length + 2))
          else
            parseIPv6Loop fuel (ip ++ [n / 256 % 256, n % 256]) (rest.drop 2)
              (some (ip.length + 2))
        else parseIPv6Loop fuel (ip ++ [n / 256 % 256, n % 256]) (rest.drop 1) ellipsis

/-- The end of `parseIPv6`: the whole string must be used, and a short address
is completed by expanding the ellipsis with zero bytes. -/
def parseIPv6Finish : List Nat × List Char × Option Nat → Option IP
  | (ip, s, ellipsis) =>
    if s ≠ [] then none
    else if ip.length < IPv6len then
      match ellipsis with
      | none => none
      | some e => some (ip.take e ++ List.replicate (IPv6len - ip.length) 0 ++ ip.drop e)
    else if ellipsis ≠ none then none
    else some ip

/-- `parseIPv6(s, false)`. -/
def parseIPv6 (s : List Char) : Option IP :=
  if s.length ≥ 2 ∧ s.head? = some ':' ∧ (s.drop 1).head? = some ':' then
    if s.drop 2 = [] then some IPv6unspecified
    else (parseIPv6Loop 8 [] (s.drop 2) (some 0)).bind parseIPv6Finish
  else (parseIPv6Loop 8 [] s none).bind parseIPv6Finish

/-- The scan of `ParseIP` for the first `.` or `:` of the string `s`. -/
def parseIPScan (s : List Char) : List Char → Option IP
  | [] => none
  | c :: rest =>
    if c = '.' then parseIPv4 s
    else if c = ':' then parseIPv6 s
    else parseIPScan s rest

/-- `net.ParseIP(s)`; `nil` is `none`. -/
def ParseIP (s : String) : Option IP := parseIPScan s.data s.data

/-! ### `IP.String` -/

/-- `uitoa(val)`: decimal digits of `val`. -/
def uitoa (val : Nat) : List Char := Nat.toDigits 10 val

/-- `appendHex(dst, i)`: append `i` in hexadecimal, without leading zeros. -/
def appendHex (dst : List Char) (i : Nat) : List Char :=
  if i = 0 then dst ++ ['0']
  else
    [7, 6, 5, 4, 3, 2, 1, 0].foldl
      (fun dst j =>
        if Nat.shiftRight i (j * 4) > 0 then
          dst ++ [Nat.digitChar (Nat.land (Nat.shiftRight i (j * 4)) 0xf)]
        else dst)
      dst

/-- The inner loop `for j < IPv6len && p[j] == 0 && p[j+1] == 0` of `String`:
the end of the run of zero groups starting at `j`. -/
def zeroRunEnd (p : List Nat) : Nat → Nat → Nat
  | 0, j => j
  | fuel + 1, j =>
    if j < IPv6len ∧ p.getD j 0 = 0 ∧ p.getD (j + 1) 0 = 0 then zeroRunEnd p fuel (j + 2)
    else j

/-- The first loop of `String`: the longest run of zero groups `(e0, e1)`,
`none` while `e0 = e1 = -1`. -/
def longestZeroRun (p : List Nat) : Nat → Nat → Option (Nat × Nat) → Option (Nat × Nat)
  | 0, _, e => e
  | fuel + 1, i, e =>
    if ¬ i < IPv6len then e
    else if zeroRunEnd p 8 i > i ∧
        zeroRunEnd p 8 i - i > (match e with | some (e0, e1) => e1 - e0 | none => 0) then
      longestZeroRun p fuel (zeroRunEnd p 8 i + 2) (some (i, zeroRunEnd p 8 i))
    else longestZeroRun p fuel (i + 2) e

/-- The second loop of `String`: print the groups, with `::` for the run `e`. -/
def printGroups (p : List Nat) (e : Option (Nat × Nat)) : Nat → Nat → List Char → List Char
  | 0, _, b => b
  | fuel + 1, i, b =>
    if ¬ i < IPv6len then b
    else
      match (match e with | some (e0, e1) => if i = e0 then some e1 else none | none => none) with
      | some e1 =>
        if e1 ≥ IPv6len then b ++ [':', ':']
        else
          printGroups p e fuel (e1 + 2)
            (appendHex (b ++ [':', ':']) (p.getD e1 0 * 256 + p.getD (e1 + 1) 0))
      | none =>
        printGroups p e fuel (i + 2)
          (appendHex (if i > 0 then b ++ [':'] else b) (p.getD i 0 * 256 + p.getD (i + 1) 0))

/-- `ip.String()` for a non-nil `ip`. -/
def IP.String (ip : IP) : String :=
  if ip.length = 0 then "<nil>"
  else
    match ip.To4 with
    | some p4 =>
      String.mk (uitoa (p4.getD 0 0) ++ ['.'] ++ uitoa (p4.getD 1 0) ++ ['.'] ++
        uitoa (p4.getD 2 0) ++ ['.'] ++ uitoa (p4.getD 3 0))
    | none =>
      if ip.length ≠ IPv6len then "?"
      else
        String.mk (printGroups ip
          (match longestZeroRun ip 8 0 none with
            | some (e0, e1) => if e1 - e0 ≤ 2 then none else some (e0, e1)
            | none => none)
          8 0 [])

/-- `ip.String()` for a Go value `ip` of type `net.IP`, which may be `nil`. -/
def String (ip : Option IP) : String :=
  match ip with
  | none => "<nil>"
  | some p => p.String

end net

/-! ## Configuration -/

/-- Modelled from the spec: the `NetworkSubnetsProvider` interface of the
configuration, declared outside `listen_addr.go`. The spec requires `V4Subnets()`
and `V6Subnets()` to be side-effect-free and to return a sequence of subnets,
so the provider is the two sequences it returns. -/
structure NetworkSubnetsProvider where
  V4Subnets : List net.IPNet
  V6Subnets : List net.IPNet

/-- Modelled from the spec: the cluster configuration, declared outside
`listen_addr.go`; it holds `DefaultAdvertiseAddr` and the subnet provider. -/
structure Config where
  DefaultAdvertiseAddr : String
  NetworkSubnetsProvider : cluster.NetworkSubnetsProvider

/-- Modelled from the spec: the receiver `c *Cluster` of the resolvers, of which
only `c.config` is read. -/
structure Cluster where
  config : Config

/-! ## `resolveInterfaceAddr` (lines 107-151) -/

/-- The loop `for _, addr := range addrs` of `resolveInterfaceAddr` (lines
121-139) followed by the code after it (lines 141-150), with the two local
variables `interfaceAddr4` and `interfaceAddr6` as explicit state. -/
def resolveInterfaceAddrLoop (specifiedInterface : String) :
    List net.Addr → Option net.IP → Option net.IP → Option net.IP × Option Error
  | [], interfaceAddr4, interfaceAddr6 =>
    if interfaceAddr4 = none ∧ interfaceAddr6 = none then
      (none, some (.noUsableAddr specifiedInterface))
    else if interfaceAddr4 ≠ none then (interfaceAddr4, none)
    else (interfaceAddr6, none)
  | addr :: addrs, interfaceAddr4, interfaceAddr6 =>
    match addr with
    | .ipNet ipAddr =>
      if ipAddr.IP.To4 ≠ none then
        if interfaceAddr4 ≠ none then (none, some (.moreThanOneIPv4 specifiedInterface))
        else resolveInterfaceAddrLoop specifiedInterface addrs (some ipAddr.IP) interfaceAddr6
      else
        if interfaceAddr6 ≠ none then (none, some (.moreThanOneIPv6 specifiedInterface))
        else resolveInterfaceAddrLoop specifiedInterface addrs interfaceAddr4 (some ipAddr.IP)
    | .ipAddr _ => resolveInterfaceAddrLoop specifiedInterface addrs interfaceAddr4 interfaceAddr6

/-- `resolveInterfaceAddr(specifiedInterface)`. -/
def resolveInterfaceAddr (os : net.Host) (specifiedInterface : String) :
    Option net.IP × Option Error :=
  match net.InterfaceByName os specifiedInterface with
  | .error _ => (none, some .errNoSuchInterface)
  | .ok intf =>
    match intf.Addrs with
    | .error err => (none, some (.netError err))
    | .ok addrs => resolveInterfaceAddrLoop specifiedInterface addrs none none

/-! ## `resolveSystemAddr` (lines 153-242) -/

/-- How the loop over the addresses of one interface (lines 181-220) ends. -/
inductive AddrLoopExit where
  /-- `continue ifaceLoop` (lines 195 and 210). -/
  | continueIfaceLoop
  /-- `return nil, err` (lines 200 and 215). -/
  | returnErr (err : Error)
  /-- The loop ran to its end, leaving `interfaceAddr4` and `interfaceAddr6`. -/
  | done (interfaceAddr4 interfaceAddr6 : Option net.IP)
  deriving DecidableEq, Repr

/-- The loop `for _, addr := range addrs` of `resolveSystemAddr` (lines 181-220),
with `interfaceAddr4` and `interfaceAddr6` as explicit state. -/
def resolveSystemAddrAddrLoop (v4Subnets v6Subnets : List net.IPNet) :
    List net.Addr → Option net.IP → Option net.IP → AddrLoopExit
  | [], interfaceAddr4, interfaceAddr6 => .done interfaceAddr4 interfaceAddr6
  | addr :: addrs, interfaceAddr4, interfaceAddr6 =>
    match addr with
    | .ipAddr _ => resolveSystemAddrAddrLoop v4Subnets v6Subnets addrs interfaceAddr4 interfaceAddr6
    | .ipNet ipAddr =>
      if ipAddr.IP.IsGlobalUnicast = false then
        resolveSystemAddrAddrLoop v4Subnets v6Subnets addrs interfaceAddr4 interfaceAddr6
      else if ipAddr.IP.To4 ≠ none then
        if v4Subnets.any (fun subnet => subnet.Contains ipAddr.IP) = true then .continueIfaceLoop
        else if interfaceAddr4 ≠ none then .returnErr .errMultipleIPs
        else resolveSystemAddrAddrLoop v4Subnets v6Subnets addrs (some ipAddr.IP) interfaceAddr6
      else
        if v6Subnets.any (fun subnet => subnet.Contains ipAddr.IP) = true then .continueIfaceLoop
        else if interfaceAddr6 ≠ none then .returnErr .errMultipleIPs
        else resolveSystemAddrAddrLoop v4Subnets v6Subnets addrs interfaceAddr4 (some ipAddr.IP)

/-- The loop `ifaceLoop` of `resolveSystemAddr` (lines 167-235) followed by the
code after it (lines 237-241), with `systemAddr` as explicit state. -/
def resolveSystemAddrIfaceLoop (v4Subnets v6Subnets : List net.IPNet) :
    List net.Interface → Option net.IP → Option net.IP × Option Error
  | [], systemAddr =>
    if systemAddr = none then (none, some .errNoIP) else (systemAddr, none)
  | intf :: interfaces, systemAddr =>
    if Nat.land intf.Flags net.FlagUp = 0 ∨ Nat.land intf.Flags net.FlagLoopback ≠ 0 then
      resolveSystemAddrIfaceLoop v4Subnets v6Subnets interfaces systemAddr
    else
      match intf.Addrs with
      | .error _ => resolveSystemAddrIfaceLoop v4Subnets v6Subnets interfaces systemAddr
      | .ok addrs =>
        match resolveSystemAddrAddrLoop v4Subnets v6Subnets addrs none none with
        | .continueIfaceLoop =>
          resolveSystemAddrIfaceLoop v4Subnets v6Subnets interfaces systemAddr
        | .returnErr err => (none, some err)
        | .done interfaceAddr4 interfaceAddr6 =>
          if interfaceAddr4 ≠ none then
            if systemAddr ≠ none then (none, some .errMultipleIPs)
            else resolveSystemAddrIfaceLoop v4Subnets v6Subnets interfaces interfaceAddr4
          else if interfaceAddr6 ≠ none then
            if systemAddr ≠ none then (none, some .errMultipleIPs)
            else resolveSystemAddrIfaceLoop v4Subnets v6Subnets interfaces interfaceAddr6
          else resolveSystemAddrIfaceLoop v4Subnets v6Subnets interfaces systemAddr

/-- `c.resolveSystemAddr()`. -/
def resolveSystemAddr (os : net.Host) (c : Cluster) : Option net.IP × Option Error :=
  match os.Interfaces with
  | .error err => (none, some (.netError err))
  | .ok interfaces =>
    resolveSystemAddrIfaceLoop c.config.NetworkSubnetsProvider.V4Subnets
      c.config.NetworkSubnetsProvider.V6Subnets interfaces none

/-! ## `resolveListenAddr` (lines 19-41) and `resolveAdvertiseAddr` (lines 43-105) -/

/-- `resolveListenAddr(specifiedAddr)`. -/
def resolveListenAddr (os : net.Host) (specifiedAddr : String) :
    String × String × Option Error :=
  match net.SplitHostPort specifiedAddr with
  | .error _ => ("", "", some (.couldNotParseListenAddr specifiedAddr))
  | .ok (specifiedHost, specifiedPort) =>
    match resolveInterfaceAddr os specifiedHost with
    | (interfaceAddr, none) => (net.String interfaceAddr, specifiedPort, none)
    | (_, some err) =>
      if err ≠ .errNoSuchInterface then ("", "", some err)
      else if net.ParseIP specifiedHost = none then ("", "", some .errBadListenAddr)
      else (specifiedHost, specifiedPort, none)

/-- The first tier of `resolveAdvertiseAddr` once the advertise address is split
into `advertiseHost` and `advertisePort` (lines 62-77). -/
def resolveAdvertiseHost (os : net.Host) (advertiseHost advertisePort : String) :
    String × String × Option Error :=
  match resolveInterfaceAddr os advertiseHost with
  | (interfaceAddr, none) => (net.String interfaceAddr, advertisePort, none)
  | (_, some err) =>
    if err ≠ .errNoSuchInterface then ("", "", some err)
    else if net.ParseIP advertiseHost = none then ("", "", some .errBadAdvertiseAddr)
    else (advertiseHost, advertisePort, none)

/-- `c.resolveAdvertiseAddr(advertiseAddr, listenAddrPort)`. -/
def resolveAdvertiseAddr (os : net.Host) (c : Cluster) (advertiseAddr listenAddrPort : String) :
    String × String × Option Error :=
  if advertiseAddr ≠ "" then
    match net.SplitHostPort advertiseAddr with
    | .error _ => resolveAdvertiseHost os advertiseAddr listenAddrPort
    | .ok (advertiseHost, advertisePort) => resolveAdvertiseHost os advertiseHost advertisePort
  else if c.config.DefaultAdvertiseAddr ≠ "" then
    match resolveInterfaceAddr os c.config.DefaultAdvertiseAddr with
    | (interfaceAddr, none) => (net.String interfaceAddr, listenAddrPort, none)
    | (_, some err) =>
      if err ≠ .errNoSuchInterface then ("", "", some err)
      else if net.ParseIP c.config.DefaultAdvertiseAddr = none then
        ("", "", some .errBadDefaultAdvertiseAddr)
      else (c.config.DefaultAdvertiseAddr, listenAddrPort, none)
  else
    match resolveSystemAddr os c with
    | (_, some err) => ("", "", some err)
    | (systemAddr, none) => (net.String systemAddr, listenAddrPort, none)

/-! ## Vocabulary of the statements -/

/-- The interface is up and is not a loopback interface: the guard of line 170
does not skip it. -/
def Active (intf : net.Interface) : Prop :=
  Nat.land intf.Flags net.FlagUp ≠ 0 ∧ Nat.land intf.Flags net.FlagLoopback = 0

instance (intf : net.Interface) : Decidable (Active intf) :=
  inferInstanceAs
    (Decidable (Nat.land intf.Flags net.FlagUp ≠ 0 ∧ Nat.land intf.Flags net.FlagLoopback = 0))

/-- The address lies in a managed subnet of its own IP version: in one of
`v4Subnets` for an IPv4 address, in one of `v6Subnets` otherwise. -/
def inManagedSubnet (v4Subnets v6Subnets : List net.IPNet) (ip : net.IP) : Bool :=
  if ip.To4 ≠ none then v4Subnets.any (fun subnet => subnet.Contains ip)
  else v6Subnets.any (fun subnet => subnet.Contains ip)

/-- The IPs of the network addresses (`*net.IPNet`) of an address list, in order. -/
def networkIPs (addrs : List net.Addr) : List net.IP :=
  addrs.filterMap (fun addr =>
    match addr with
    | .ipNet ipAddr => some ipAddr.IP
    | .ipAddr _ => none)

/-- The global-unicast IPs among the network addresses of an address list. -/
def globalUnicastIPs (addrs : List net.Addr) : List net.IP :=
  (networkIPs addrs).filter (fun ip => ip.IsGlobalUnicast)

/-- The IPv4 addresses of a list of IPs (`To4() != nil`). -/
def ipv4Of (l : List net.IP) : List net.IP := l.filter (fun ip => decide (ip.To4 ≠ none))

/-- The IPv6 addresses of a list of IPs (`To4() == nil`). -/
def ipv6Of (l : List net.IP) : List net.IP := l.filter (fun ip => decide (ip.To4 = none))

/-- The addresses of an address list that qualify for autodetection:
global-unicast network addresses outside the managed subnets. -/
def qualifyingIPs (v4Subnets v6Subnets : List net.IPNet) (addrs : List net.Addr) :
    List net.IP :=
  (globalUnicastIPs addrs).filter (fun ip => !inManagedSubnet v4Subnets v6Subnets ip)

/-- The autodetection candidates an interface holds: the qualifying addresses
of an interface that is up, not loopback, and whose addresses can be listed. -/
def candidateIPs (v4Subnets v6Subnets : List net.IPNet) (intf : net.Interface) :
    List net.IP :=
  if Active intf then
    match intf.Addrs with
    | .ok addrs => qualifyingIPs v4Subnets v6Subnets addrs
    | .error _ => []
  else []

/-- The addresses listed for an interface; none when `Addrs()` fails. -/
def listedAddrs (intf : net.Interface) : List net.Addr :=
  match intf.Addrs with
  | .ok addrs => addrs
  | .error _ => []

/-- The global-unicast addresses of an interface that lie inside a managed
subnet of their own IP version. -/
def managedIPs (v4Subnets v6Subnets : List net.IPNet) (intf : net.Interface) : List net.IP :=
  (globalUnicastIPs (listedAddrs intf)).filter (fun ip => inManagedSubnet v4Subnets v6Subnets ip)

/-- The autodetection candidates of a snapshot: those of its interfaces, in order. -/
def systemCandidates (v4Subnets v6Subnets : List net.IPNet) (interfaces : List net.Interface) :
    List net.IP :=
  (interfaces.map (candidateIPs v4Subnets v6Subnets)).flatten

/-- What one iteration of `ifaceLoop` does with the interface it visits. -/
inductive IfaceOutcome where
  /-- The iteration leaves `systemAddr` alone and goes on. -/
  | skip
  /-- The iteration offers the address `a` as the system address. -/
  | candidate (a : net.IP)
  /-- The iteration returns `errMultipleIPs` from inside the address loop. -/
  | fail (err : Error)
  deriving DecidableEq, Repr

/-- The outcome of the iteration of `ifaceLoop` for `intf` (lines 169-234):
computed with the address loop of the source. -/
def ifaceOutcome (v4Subnets v6Subnets : List net.IPNet) (intf : net.Interface) :
    IfaceOutcome :=
  if Nat.land intf.Flags net.FlagUp = 0 ∨ Nat.land intf.Flags net.FlagLoopback ≠ 0 then .skip
  else
    match intf.Addrs with
    | .error _ => .skip
    | .ok addrs =>
      match resolveSystemAddrAddrLoop v4Subnets v6Subnets addrs none none with
      | .continueIfaceLoop => .skip
      | .returnErr err => .fail err
      | .done (some a) _ => .candidate a
      | .done none (some a) => .candidate a
      | .done none none => .skip

/-- The candidate an outcome offers, if any. -/
def IfaceOutcome.candidate? : IfaceOutcome → Option net.IP
  | .candidate a => some a
  | _ => none

/-- The error an outcome returns, if any. -/
def IfaceOutcome.fail? : IfaceOutcome → Option Error
  | .fail err => some err
  | _ => none

/-- The candidates offered by the interfaces of a list, in order. -/
def candidatesOf (v4Subnets v6Subnets : List net.IPNet) (interfaces : List net.Interface) :
    List net.IP :=
  interfaces.filterMap (fun intf => (ifaceOutcome v4Subnets v6Subnets intf).candidate?)

/-- The host that the first tier of `resolveAdvertiseAddr` resolves (lines 55-60):
the host part of `advertiseAddr` when it splits as `host:port`, the whole of
`advertiseAddr` otherwise. -/
def advertiseHostOf (advertiseAddr : String) : String :=
  match net.SplitHostPort advertiseAddr with
  | .ok (advertiseHost, _) => advertiseHost
  | .error _ => advertiseAddr

/-- The port that the first tier of `resolveAdvertiseAddr` pairs with the host
(lines 55-60): the port part of `advertiseAddr` when it splits as `host:port`,
`listenAddrPort` otherwise. -/
def advertisePortOf (advertiseAddr listenAddrPort : String) : String :=
  match net.SplitHostPort advertiseAddr with
  | .ok (_, advertisePort) => advertisePort
  | .error _ => listenAddrPort

/-- A result of `resolveListenAddr` with the error `errBadListenAddr` replaced by
`errBadAdvertiseAddr`, and nothing else changed. -/
def asAdvertiseResult (r : String × String × Option Error) : String × String × Option Error :=
  match r with
  | (host, port, some .errBadListenAddr) => (host, port, some .errBadAdvertiseAddr)
  | (host, port, err) => (host, port, err)

/-! ## The refactored form of `resolveSystemAddr`

The form proposed in place of the nested labeled loop: the handling of one
interface is a classifier of its own, `ifaceOutcome`, which returns skip, one
candidate or an error, and an outer iteration over the up, non-loopback
interfaces acts on that signal. -/

/-- The outer iteration of the refactored form, over the classifications of the
up, non-loopback interfaces: `errMultipleIPs` if any interface classifies as an
error or a second candidate appears, `errNoIP` if there is no candidate, and the
single candidate otherwise. -/
def specCombine (outcomes : List IfaceOutcome) : Option net.IP × Option Error :=
  if (outcomes.any fun o => (o.fail?).isSome) = true ∨
      2 ≤ (outcomes.filterMap IfaceOutcome.candidate?).length then
    (none, some .errMultipleIPs)
  else
    match outcomes.filterMap IfaceOutcome.candidate? with
    | [] => (none, some .errNoIP)
    | a :: _ => (some a, none)

/-- The refactored form of `resolveSystemAddr`: classify every up, non-loopback
interface of the snapshot, then combine the classifications. -/
def refactoredResolveSystemAddr (os : net.Host) (c : Cluster) :
    Option net.IP × Option Error :=
  match os.Interfaces with
  | .error err => (none, some (.netError err))
  | .ok interfaces =>
    specCombine
      ((interfaces.filter fun intf => decide (Active intf)).map
        (ifaceOutcome c.config.NetworkSubnetsProvider.V4Subnets
          c.config.NetworkSubnetsProvider.V6Subnets))

/-! ## Example snapshots -/

/-- The loopback interface: up and loopback (`FlagUp | FlagLoopback`), with
`127.0.0.1/8` and `::1/128`. -/
def exLo : net.Interface :=
  { Name := "lo", Flags := 5,
    Addrs := .ok [.ipNet ⟨net.IPv4 127 0 0 1, [255, 0, 0, 0]⟩,
      .ipNet ⟨net.IPv6loopback,
        [255, 255, 255, 255, 255, 255, 255, 255, 255, 255, 255, 255, 255, 255, 255, 255]⟩] }

/-- The mask of a `/64` IPv6 network. -/
def exMask64 : net.IPMask := [255, 255, 255, 255, 255, 255, 255, 255, 0, 0, 0, 0, 0, 0, 0, 0]

/-- The address `2001:db8::1`. -/
def exIP6 : net.IP := [0x20, 0x01, 0x0d, 0xb8, 0, 0, 0, 0, 0, 0, 0, 0, 0, 0, 0, 1]

/-- The link-local address `fe80::1`. -/
def exLinkLocal : net.IP := [0xfe, 0x80, 0, 0, 0, 0, 0, 0, 0, 0, 0, 0, 0, 0, 0, 1]

/-- An Ethernet interface, up, with `10.0.0.5/24` and the link-local `fe80::1/64`. -/
def exEth0 : net.Interface :=
  { Name := "eth0", Flags := 19,
    Addrs := .ok [.ipNet ⟨net.IPv4 10 0 0 5, [255, 255, 255, 0]⟩,
      .ipNet ⟨exLinkLocal, exMask64⟩] }

/-- A second Ethernet interface, up, with `192.168.1.7/24`. -/
def exEth1 : net.Interface :=
  { Name := "eth1", Flags := 19,
    Addrs := .ok [.ipNet ⟨net.IPv4 192 168 1 7, [255, 255, 255, 0]⟩] }

/-- The bridge of the container runtime, up, with `172.17.0.1/16`. -/
def exDocker0 : net.Interface :=
  { Name := "docker0", Flags := 19,
    Addrs := .ok [.ipNet ⟨net.IPv4 172 17 0 1, [255, 255, 0, 0]⟩] }

/-- A provider managing the IPv4 subnet `172.17.0.0/16` and no IPv6 subnet. -/
def exProvider : NetworkSubnetsProvider :=
  { V4Subnets := [⟨net.IPv4 172 17 0 0, [255, 255, 0, 0]⟩], V6Subnets := [] }

/-- A cluster with the given default advertise address and `exProvider`. -/
def exCluster (defaultAdvertiseAddr : String) : Cluster :=
  { config := { DefaultAdvertiseAddr := defaultAdvertiseAddr, NetworkSubnetsProvider := exProvider } }

/-- A host with `lo`, `eth0` and `docker0`. -/
def exHost : net.Host := { Interfaces := .ok [exLo, exEth0, exDocker0] }

/-- A host with `lo`, `eth0`, `eth1` and `docker0`. -/
def exHostTwo : net.Host := { Interfaces := .ok [exLo, exEth0, exEth1, exDocker0] }

/-- An interface with one IPv4 address (`10.0.0.5`), one IPv6 address
(`2001:db8::1`), listed after it, and an address that is no `*net.IPNet`. -/
def exDual : net.Interface :=
  { Name := "dual0", Flags := 19,
    Addrs := .ok [.ipAddr [10, 0, 0, 9], .ipNet ⟨exIP6, exMask64⟩,
      .ipNet ⟨net.IPv4 10 0 0 5, [255, 255, 255, 0]⟩] }

/-- An interface with the two IPv4 addresses `10.0.0.5` and `10.0.0.6`, and an
IPv6 address between them. -/
def exTwoV4 : net.Interface :=
  { Name := "multi0", Flags := 19,
    Addrs := .ok [.ipNet ⟨net.IPv4 10 0 0 5, [255, 255, 255, 0]⟩, .ipNet ⟨exIP6, exMask64⟩,
      .ipNet ⟨net.IPv4 10 0 0 6, [255, 255, 255, 0]⟩] }

/-- A host with `lo`, `dual0` and `multi0`. -/
def exHostNamed : net.Host := { Interfaces := .ok [exLo, exDual, exTwoV4] }

/-- A host with `lo`, `eth0` and `eth1`: two interfaces with one global-unicast
address each, and no address in a managed subnet. -/
def exHostPlain : net.Host := { Interfaces := .ok [exLo, exEth0, exEth1] }

/-- An interface, up, with the single IPv6 address `2001:db8::1`. -/
def exEth6 : net.Interface :=
  { Name := "eth6", Flags := 19, Addrs := .ok [.ipNet ⟨exIP6, exMask64⟩] }

/-- A host whose only IPv4 candidate (`10.0.0.5` on `eth0`) and only IPv6
candidate (`2001:db8::1` on `eth6`) sit on two different interfaces. -/
def exHostSplit : net.Host := { Interfaces := .ok [exLo, exEth0, exEth6] }

/-- An interface, up, with `10.0.0.5`, `2001:db8::1` and, listed last, the
managed address `172.17.0.1`. -/
def exMixed : net.Interface :=
  { Name := "mixed0", Flags := 19,
    Addrs := .ok [.ipNet ⟨net.IPv4 10 0 0 5, [255, 255, 255, 0]⟩, .ipNet ⟨exIP6, exMask64⟩,
      .ipNet ⟨net.IPv4 172 17 0 1, [255, 255, 0, 0]⟩] }

/-- A host with `lo` and `mixed0`. -/
def exHostMixed : net.Host := { Interfaces := .ok [exLo, exMixed] }

/-- A host with `lo` and `dual0`: one IPv4 and one IPv6 candidate on one interface. -/
def exHostDual : net.Host := { Interfaces := .ok [exLo, exDual] }

/-- An interface, up, with `10.0.0.5` and `10.0.0.6` and, listed last, the managed
address `172.17.0.1`. -/
def exLate : net.Interface :=
  { Name := "late0", Flags := 19,
    Addrs := .ok [.ipNet ⟨net.IPv4 10 0 0 5, [255, 255, 255, 0]⟩,
      .ipNet ⟨net.IPv4 10 0 0 6, [255, 255, 255, 0]⟩,
      .ipNet ⟨net.IPv4 172 17 0 1, [255, 255, 0, 0]⟩] }

/-- A host with `lo`, `late0` and `eth1`. -/
def exHostLate : net.Host := { Interfaces := .ok [exLo, exLate, exEth1] }

/-- The host `exHostLate` with `late0` removed. -/
def exHostLateRemoved : net.Host := { Interfaces := .ok [exLo, exEth1] }

/-- A host with `lo`, `mixed0` and `eth1`. -/
def exHostSkip : net.Host := { Interfaces := .ok [exLo, exMixed, exEth1] }

/-- An interface, up, whose `Addrs()` call fails. -/
def exBroken : net.Interface :=
  { Name := "broken0", Flags := 19, Addrs := .error ⟨"route ip+net: no such device"⟩ }

/-- A host with `lo`, `broken0` and `eth1`. -/
def exHostBroken : net.Host := { Interfaces := .ok [exLo, exBroken, exEth1] }

/-- A host on which listing the interfaces fails. -/
def exHostDown : net.Host := { Interfaces := .error ⟨"route ip+net: netlinkrib: too many open files"⟩ }

/-- An interface whose name reads as a literal IP, with the two IPv4 addresses
`10.0.0.5` and `10.0.0.6`. -/
def exLiteral : net.Interface :=
  { Name := "10.0.0.9", Flags := 19,
    Addrs := .ok [.ipNet ⟨net.IPv4 10 0 0 5, [255, 255, 255, 0]⟩,
      .ipNet ⟨net.IPv4 10 0 0 6, [255, 255, 255, 0]⟩] }

/-- A host with `lo` and the interface named `10.0.0.9`. -/
def exHostLiteral : net.Host := { Interfaces := .ok [exLo, exLiteral] }

/-- A host with `lo` and `docker0` only: its one global-unicast address,
`172.17.0.1`, lies in a managed subnet. -/
def exHostManaged : net.Host := { Interfaces := .ok [exLo, exDocker0] }

/-- The host `exHost` with its interfaces listed in the reverse order. -/
def exHostReversed : net.Host := { Interfaces := .ok [exDocker0, exEth0, exLo] }

/-! ## Lemmas on the loops -/

theorem globalUnicastIPs_nil : globalUnicastIPs [] = [] := rfl

theorem globalUnicastIPs_cons_ipAddr (ip : List Nat) (addrs : List net.Addr) :
    globalUnicastIPs (.ipAddr ip :: addrs) = globalUnicastIPs addrs := by
  simp [globalUnicastIPs, networkIPs]

theorem globalUnicastIPs_cons_ipNet (n : net.IPNet) (addrs : List net.Addr) :
    globalUnicastIPs (.ipNet n :: addrs) =
      if n.IP.IsGlobalUnicast = true then n.IP :: globalUnicastIPs addrs
      else globalUnicastIPs addrs := by
  by_cases h : n.IP.IsGlobalUnicast = true <;> simp [globalUnicastIPs, networkIPs, h]

theorem addrLoop_done (v4 v6 : List net.IPNet) (addrs : List net.Addr) :
    ∀ (a4 a6 r4 r6 : Option net.IP),
      resolveSystemAddrAddrLoop v4 v6 addrs a4 a6 = .done r4 r6 →
      (∀ ip ∈ globalUnicastIPs addrs, inManagedSubnet v4 v6 ip = false) ∧
      r4.toList = a4.toList ++ ipv4Of (globalUnicastIPs addrs) ∧
      r6.toList = a6.toList ++ ipv6Of (globalUnicastIPs addrs) := by
  induction addrs with
  | nil =>
    intro a4 a6 r4 r6 h
    simp [resolveSystemAddrAddrLoop] at h
    simp [globalUnicastIPs, networkIPs, ipv4Of, ipv6Of, h.1, h.2]
  | cons addr addrs ih =>
    intro a4 a6 r4 r6 h
    cases addr with
    | ipAddr ip =>
      rw [globalUnicastIPs_cons_ipAddr]
      exact ih a4 a6 r4 r6 (by simpa [resolveSystemAddrAddrLoop] using h)
    | ipNet n =>
      rw [globalUnicastIPs_cons_ipNet]
      by_cases hg : n.IP.IsGlobalUnicast = true
      · by_cases h4 : n.IP.To4 = none
        · by_cases hm : (v6.any fun subnet => subnet.Contains n.IP) = true
          · simp [resolveSystemAddrAddrLoop, hg, h4, hm] at h
          · cases a6 with
            | some x => simp [resolveSystemAddrAddrLoop, hg, h4, hm] at h
            | none =>
              have h2 : resolveSystemAddrAddrLoop v4 v6 addrs a4 (some n.IP) = .done r4 r6 := by
                simpa [resolveSystemAddrAddrLoop, hg, h4, hm] using h
              obtain ⟨k1, k2, k3⟩ := ih _ _ _ _ h2
              refine ⟨?_, ?_, ?_⟩
              · intro ip hip
                simp only [hg, if_true, List.mem_cons] at hip
                rcases hip with rfl | hip
                · simpa [inManagedSubnet, h4] using hm
                · exact k1 ip hip
              · simp [hg, ipv4Of, h4] at k2 ⊢
                exact k2
              · simp [hg, ipv6Of, h4] at k3 ⊢
                exact k3
        · by_cases hm : (v4.any fun subnet => subnet.Contains n.IP) = true
          · simp [resolveSystemAddrAddrLoop, hg, h4, hm] at h
          · cases a4 with
            | some x => simp [resolveSystemAddrAddrLoop, hg, h4, hm] at h
            | none =>
              have h2 : resolveSystemAddrAddrLoop v4 v6 addrs (some n.IP) a6 = .done r4 r6 := by
                simpa [resolveSystemAddrAddrLoop, hg, h4, hm] using h
              obtain ⟨k1, k2, k3⟩ := ih _ _ _ _ h2
              refine ⟨?_, ?_, ?_⟩
              · intro ip hip
                simp only [hg, if_true, List.mem_cons] at hip
                rcases hip with rfl | hip
                · simpa [inManagedSubnet, h4] using hm
                · exact k1 ip hip
              · simp [hg, ipv4Of, h4] at k2 ⊢
                exact k2
              · simp [hg, ipv6Of, h4] at k3 ⊢
                exact k3
      · have h2 : resolveSystemAddrAddrLoop v4 v6 addrs a4 a6 = .done r4 r6 := by
          simpa [resolveSystemAddrAddrLoop, hg] using h
        simp only [hg]
        exact ih _ _ _ _ h2

theorem addrLoop_returnErr (v4 v6 : List net.IPNet) (addrs : List net.Addr) :
    ∀ (a4 a6 : Option net.IP) (err : Error),
      resolveSystemAddrAddrLoop v4 v6 addrs a4 a6 = .returnErr err →
      err = .errMultipleIPs ∧
      (2 ≤ (a4.toList ++ ipv4Of (qualifyingIPs v4 v6 addrs)).length ∨
        2 ≤ (a6.toList ++ ipv6Of (qualifyingIPs v4 v6 addrs)).length) := by
  induction addrs with
  | nil =>
    intro a4 a6 err h
    simp [resolveSystemAddrAddrLoop] at h
  | cons addr addrs ih =>
    intro a4 a6 err h
    cases addr with
    | ipAddr ip =>
      have h2 : resolveSystemAddrAddrLoop v4 v6 addrs a4 a6 = .returnErr err := by
        simpa [resolveSystemAddrAddrLoop] using h
      simpa [qualifyingIPs, globalUnicastIPs_cons_ipAddr] using ih _ _ _ h2
    | ipNet n =>
      by_cases hg : n.IP.IsGlobalUnicast = true
      · by_cases h4 : n.IP.To4 = none
        · by_cases hm : (v6.any fun subnet => subnet.Contains n.IP) = true
          · simp [resolveSystemAddrAddrLoop, hg, h4, hm] at h
          · have hq : qualifyingIPs v4 v6 (.ipNet n :: addrs) = n.IP :: qualifyingIPs v4 v6 addrs := by
              simp [qualifyingIPs, globalUnicastIPs_cons_ipNet, hg, inManagedSubnet, h4, hm]
            cases a6 with
            | some x =>
              simp [resolveSystemAddrAddrLoop, hg, h4, hm] at h
              refine ⟨h.symm, Or.inr ?_⟩
              simp [hq, ipv6Of, h4]
            | none =>
              have h2 : resolveSystemAddrAddrLoop v4 v6 addrs a4 (some n.IP) = .returnErr err := by
                simpa [resolveSystemAddrAddrLoop, hg, h4, hm] using h
              obtain ⟨k1, k2⟩ := ih _ _ _ h2
              refine ⟨k1, ?_⟩
              simpa [hq, ipv4Of, ipv6Of, h4] using k2
        · by_cases hm : (v4.any fun subnet => subnet.Contains n.IP) = true
          · simp [resolveSystemAddrAddrLoop, hg, h4, hm] at h
          · have hq : qualifyingIPs v4 v6 (.ipNet n :: addrs) = n.IP :: qualifyingIPs v4 v6 addrs := by
              simp [qualifyingIPs, globalUnicastIPs_cons_ipNet, hg, inManagedSubnet, h4, hm]
            cases a4 with
            | some x =>
              simp [resolveSystemAddrAddrLoop, hg, h4, hm] at h
              refine ⟨h.symm, Or.inl ?_⟩
              simp [hq, ipv4Of, h4]
            | none =>
              have h2 : resolveSystemAddrAddrLoop v4 v6 addrs (some n.IP) a6 = .returnErr err := by
                simpa [resolveSystemAddrAddrLoop, hg, h4, hm] using h
              obtain ⟨k1, k2⟩ := ih _ _ _ h2
              refine ⟨k1, ?_⟩
              simpa [hq, ipv4Of, ipv6Of, h4] using k2
      · have h2 : resolveSystemAddrAddrLoop v4 v6 addrs a4 a6 = .returnErr err := by
          simpa [resolveSystemAddrAddrLoop, hg] using h
        simpa [qualifyingIPs, globalUnicastIPs_cons_ipNet, hg] using ih _ _ _ h2

theorem addrLoop_continue (v4 v6 : List net.IPNet) (addrs : List net.Addr) :
    ∀ (a4 a6 : Option net.IP),
      resolveSystemAddrAddrLoop v4 v6 addrs a4 a6 = .continueIfaceLoop →
      ∃ ip ∈ globalUnicastIPs addrs, inManagedSubnet v4 v6 ip = true := by
  induction addrs with
  | nil =>
    intro a4 a6 h
    simp [resolveSystemAddrAddrLoop] at h
  | cons addr addrs ih =>
    intro a4 a6 h
    cases addr with
    | ipAddr ip =>
      rw [globalUnicastIPs_cons_ipAddr]
      exact ih _ _ (by simpa [resolveSystemAddrAddrLoop] using h)
    | ipNet n =>
      rw [globalUnicastIPs_cons_ipNet]
      by_cases hg : n.IP.IsGlobalUnicast = true
      · simp only [hg, if_true]
        by_cases hm : inManagedSubnet v4 v6 n.IP = true
        · exact ⟨n.IP, List.mem_cons_self _ _, hm⟩
        · by_cases h4 : n.IP.To4 = none
          · have hm2 : ¬ (v6.any fun subnet => subnet.Contains n.IP) = true := by
              simpa [inManagedSubnet, h4] using hm
            cases a6 with
            | some x => simp [resolveSystemAddrAddrLoop, hg, h4, hm2] at h
            | none =>
              have h2 : resolveSystemAddrAddrLoop v4 v6 addrs a4 (some n.IP) = .continueIfaceLoop := by
                simpa [resolveSystemAddrAddrLoop, hg, h4, hm2] using h
              obtain ⟨ip, hip, hmip⟩ := ih _ _ h2
              exact ⟨ip, List.mem_cons_of_mem _ hip, hmip⟩
          · have hm2 : ¬ (v4.any fun subnet => subnet.Contains n.IP) = true := by
              simpa [inManagedSubnet, h4] using hm
            cases a4 with
            | some x => simp [resolveSystemAddrAddrLoop, hg, h4, hm2] at h
            | none =>
              have h2 : resolveSystemAddrAddrLoop v4 v6 addrs (some n.IP) a6 = .continueIfaceLoop := by
                simpa [resolveSystemAddrAddrLoop, hg, h4, hm2] using h
              obtain ⟨ip, hip, hmip⟩ := ih _ _ h2
              exact ⟨ip, List.mem_cons_of_mem _ hip, hmip⟩
      · simp only [hg]
        exact ih _ _ (by simpa [resolveSystemAddrAddrLoop, hg] using h)

/-- The address loop skips the interface at the first managed address, when at
most one global-unicast address of each version comes before it. -/
theorem addrLoop_skip (v4 v6 : List net.IPNet) (n : net.IPNet) (post : List net.Addr)
    (hg : n.IP.IsGlobalUnicast = true) (hm : inManagedSubnet v4 v6 n.IP = true)
    (pre : List net.Addr) :
    ∀ (a4 a6 : Option net.IP),
      (a4.toList ++ ipv4Of (globalUnicastIPs pre)).length ≤ 1 →
      (a6.toList ++ ipv6Of (globalUnicastIPs pre)).length ≤ 1 →
      resolveSystemAddrAddrLoop v4 v6 (pre ++ .ipNet n :: post) a4 a6 = .continueIfaceLoop := by
  induction pre with
  | nil =>
    intro a4 a6 _ _
    by_cases h4 : n.IP.To4 = none
    · have hm2 : (v6.any fun subnet => subnet.Contains n.IP) = true := by
        simpa [inManagedSubnet, h4] using hm
      simp [resolveSystemAddrAddrLoop, hg, h4, hm2]
    · have hm2 : (v4.any fun subnet => subnet.Contains n.IP) = true := by
        simpa [inManagedSubnet, h4] using hm
      simp [resolveSystemAddrAddrLoop, hg, h4, hm2]
  | cons addr pre ih =>
    intro a4 a6 c4 c6
    cases addr with
    | ipAddr ip =>
      rw [globalUnicastIPs_cons_ipAddr] at c4 c6
      simpa [resolveSystemAddrAddrLoop] using ih a4 a6 c4 c6
    | ipNet k =>
      rw [globalUnicastIPs_cons_ipNet] at c4 c6
      by_cases hgk : k.IP.IsGlobalUnicast = true
      · simp only [hgk, if_true] at c4 c6
        by_cases h4 : k.IP.To4 = none
        · by_cases hmk : (v6.any fun subnet => subnet.Contains k.IP) = true
          · simp [resolveSystemAddrAddrLoop, hgk, h4, hmk]
          · cases a6 with
            | some x => simp [ipv6Of, h4] at c6
            | none =>
              have := ih a4 (some k.IP) (by simpa [ipv4Of, h4] using c4)
                (by simpa [ipv6Of, h4] using c6)
              simpa [resolveSystemAddrAddrLoop, hgk, h4, hmk] using this
        · by_cases hmk : (v4.any fun subnet => subnet.Contains k.IP) = true
          · simp [resolveSystemAddrAddrLoop, hgk, h4, hmk]
          · cases a4 with
            | some x => simp [ipv4Of, h4] at c4
            | none =>
              have := ih (some k.IP) a6 (by simpa [ipv4Of, h4] using c4)
                (by simpa [ipv6Of, h4] using c6)
              simpa [resolveSystemAddrAddrLoop, hgk, h4, hmk] using this
      · simp only [hgk] at c4 c6
        simpa [resolveSystemAddrAddrLoop, hgk] using ih a4 a6 c4 c6

theorem ifaceOutcome_fail (v4 v6 : List net.IPNet) (intf : net.Interface) (err : Error)
    (h : ifaceOutcome v4 v6 intf = .fail err) :
    err = .errMultipleIPs ∧
      (2 ≤ (ipv4Of (candidateIPs v4 v6 intf)).length ∨
        2 ≤ (ipv6Of (candidateIPs v4 v6 intf)).length) := by
  unfold ifaceOutcome at h
  split at h
  · simp at h
  · rename_i hact
    have hA : Active intf := by
      unfold Active
      constructor
      · intro h0; exact hact (Or.inl h0)
      · by_contra h0; exact hact (Or.inr h0)
    cases hadd : intf.Addrs with
    | error e => simp [hadd] at h
    | ok addrs =>
      simp only [hadd] at h
      cases hl : resolveSystemAddrAddrLoop v4 v6 addrs none none with
      | continueIfaceLoop => simp [hl] at h
      | returnErr e =>
        simp [hl] at h
        subst h
        have := addrLoop_returnErr v4 v6 addrs none none e hl
        simpa [candidateIPs, hA, hadd] using this
      | done r4 r6 =>
        cases r4 <;> cases r6 <;> simp [hl] at h

theorem ifaceLoop_step (v4 v6 : List net.IPNet) (intf : net.Interface)
    (rest : List net.Interface) (systemAddr : Option net.IP) :
    resolveSystemAddrIfaceLoop v4 v6 (intf :: rest) systemAddr =
      match ifaceOutcome v4 v6 intf with
      | .skip => resolveSystemAddrIfaceLoop v4 v6 rest systemAddr
      | .fail err => (none, some err)
      | .candidate a =>
        if systemAddr ≠ none then (none, some .errMultipleIPs)
        else resolveSystemAddrIfaceLoop v4 v6 rest (some a) := by
  rw [resolveSystemAddrIfaceLoop]
  unfold ifaceOutcome
  split
  · rfl
  · cases hadd : intf.Addrs with
    | error e => rfl
    | ok addrs =>
      simp only []
      cases hl : resolveSystemAddrAddrLoop v4 v6 addrs none none with
      | continueIfaceLoop => rfl
      | returnErr e => rfl
      | done r4 r6 =>
        cases r4 <;> cases r6 <;> simp

theorem ifaceLoop_eq (v4 v6 : List net.IPNet) (l : List net.Interface) :
    ∀ systemAddr : Option net.IP,
      resolveSystemAddrIfaceLoop v4 v6 l systemAddr =
        if (l.any fun intf => ((ifaceOutcome v4 v6 intf).fail?).isSome) = true ∨
            2 ≤ (systemAddr.toList ++ candidatesOf v4 v6 l).length then
          (none, some .errMultipleIPs)
        else
          match systemAddr.toList ++ candidatesOf v4 v6 l with
          | [] => (none, some .errNoIP)
          | a :: _ => (some a, none) := by
  induction l with
  | nil =>
    intro systemAddr
    cases systemAddr <;> simp [resolveSystemAddrIfaceLoop, candidatesOf]
  | cons intf rest ih =>
    intro systemAddr
    rw [ifaceLoop_step]
    cases ho : ifaceOutcome v4 v6 intf with
    | skip =>
      simp only [ih]
      simp [candidatesOf, ho, IfaceOutcome.fail?, IfaceOutcome.candidate?]
    | fail err =>
      have := (ifaceOutcome_fail v4 v6 intf err ho).1
      subst this
      simp [ho, IfaceOutcome.fail?]
    | candidate a =>
      cases systemAddr with
      | some x =>
        simp [candidatesOf, ho, IfaceOutcome.candidate?]
      | none =>
        simp only [ih]
        simp [candidatesOf, ho, IfaceOutcome.fail?, IfaceOutcome.candidate?]

theorem active_iff (intf : net.Interface) :
    Active intf ↔
      ¬ (Nat.land intf.Flags net.FlagUp = 0 ∨ Nat.land intf.Flags net.FlagLoopback ≠ 0) := by
  unfold Active
  constructor
  · rintro ⟨h1, h2⟩ (h | h)
    · exact h1 h
    · exact h h2
  · intro h
    constructor
    · intro h0; exact h (Or.inl h0)
    · by_contra h0; exact h (Or.inr h0)

theorem qualifyingIPs_of_unmanaged (v4 v6 : List net.IPNet) (addrs : List net.Addr)
    (hm : ∀ ip ∈ globalUnicastIPs addrs, inManagedSubnet v4 v6 ip = false) :
    qualifyingIPs v4 v6 addrs = globalUnicastIPs addrs := by
  unfold qualifyingIPs
  rw [List.filter_eq_self]
  intro ip hip
  simp [hm ip hip]

theorem option_toList_length_le {α : Type} (o : Option α) : o.toList.length ≤ 1 := by
  cases o <;> simp

theorem ifaceOutcome_candidate (v4 v6 : List net.IPNet) (intf : net.Interface) (a : net.IP)
    (h : ifaceOutcome v4 v6 intf = .candidate a) :
    Active intf ∧ ∃ addrs, intf.Addrs = .ok addrs ∧
      (∀ ip ∈ globalUnicastIPs addrs, inManagedSubnet v4 v6 ip = false) ∧
      (ipv4Of (globalUnicastIPs addrs) ++ ipv6Of (globalUnicastIPs addrs)).head? = some a ∧
      (ipv4Of (globalUnicastIPs addrs)).length ≤ 1 ∧
      (ipv6Of (globalUnicastIPs addrs)).length ≤ 1 := by
  unfold ifaceOutcome at h
  split at h
  · simp at h
  · rename_i hact
    refine ⟨(active_iff intf).2 hact, ?_⟩
    cases hadd : intf.Addrs with
    | error e => simp [hadd] at h
    | ok addrs =>
      simp only [hadd] at h
      refine ⟨addrs, rfl, ?_⟩
      cases hl : resolveSystemAddrAddrLoop v4 v6 addrs none none with
      | continueIfaceLoop => simp [hl] at h
      | returnErr e => simp [hl] at h
      | done r4 r6 =>
        obtain ⟨k1, k2, k3⟩ := addrLoop_done v4 v6 addrs none none r4 r6 hl
        simp only [show (none : Option net.IP).toList = [] from rfl, List.nil_append] at k2 k3
        refine ⟨k1, ?_, ?_, ?_⟩
        · rw [← k2, ← k3]
          cases r4 <;> cases r6 <;> simp [hl] at h <;> simp [h]
        · rw [← k2]; exact option_toList_length_le r4
        · rw [← k3]; exact option_toList_length_le r6

theorem ifaceOutcome_of_unmanaged (v4 v6 : List net.IPNet) (intf : net.Interface)
    (addrs : List net.Addr) (hA : Active intf) (hadd : intf.Addrs = .ok addrs)
    (hm : ∀ ip ∈ globalUnicastIPs addrs, inManagedSubnet v4 v6 ip = false) :
    ifaceOutcome v4 v6 intf =
      if 2 ≤ (ipv4Of (globalUnicastIPs addrs)).length ∨
          2 ≤ (ipv6Of (globalUnicastIPs addrs)).length then .fail .errMultipleIPs
      else
        match (ipv4Of (globalUnicastIPs addrs) ++ ipv6Of (globalUnicastIPs addrs)).head? with
        | some a => .candidate a
        | none => .skip := by
  have hact := (active_iff intf).1 hA
  unfold ifaceOutcome
  rw [if_neg hact]
  simp only [hadd]
  cases hl : resolveSystemAddrAddrLoop v4 v6 addrs none none with
  | continueIfaceLoop =>
    obtain ⟨ip, hip, hmip⟩ := addrLoop_continue v4 v6 addrs none none hl
    rw [hm ip hip] at hmip
    exact absurd hmip (by decide)
  | returnErr e =>
    obtain ⟨k1, k2⟩ := addrLoop_returnErr v4 v6 addrs none none e hl
    rw [qualifyingIPs_of_unmanaged v4 v6 addrs hm] at k2
    simp only [show (none : Option net.IP).toList = [] from rfl, List.nil_append] at k2
    rw [if_pos k2, k1]
  | done r4 r6 =>
    obtain ⟨_, k2, k3⟩ := addrLoop_done v4 v6 addrs none none r4 r6 hl
    simp only [show (none : Option net.IP).toList = [] from rfl, List.nil_append] at k2 k3
    have l4 := option_toList_length_le r4
    have l6 := option_toList_length_le r6
    rw [← k2, ← k3]
    rw [if_neg (by omega)]
    cases r4 <;> cases r6 <;> simp

theorem ifaceOutcome_skip_of_no_candidate (v4 v6 : List net.IPNet) (intf : net.Interface)
    (h : candidateIPs v4 v6 intf = []) : ifaceOutcome v4 v6 intf = .skip := by
  cases ho : ifaceOutcome v4 v6 intf with
  | skip => rfl
  | fail err =>
    have := (ifaceOutcome_fail v4 v6 intf err ho).2
    simp [h, ipv4Of, ipv6Of] at this
  | candidate a =>
    obtain ⟨hA, addrs, hadd, hm, hhead, _, _⟩ := ifaceOutcome_candidate v4 v6 intf a ho
    have hq : candidateIPs v4 v6 intf = globalUnicastIPs addrs := by
      simp [candidateIPs, hA, hadd, qualifyingIPs_of_unmanaged v4 v6 addrs hm]
    rw [h] at hq
    rw [← hq] at hhead
    simp [ipv4Of, ipv6Of] at hhead

/-! ## The claims -/

/-- C1. If `resolveSystemAddr` succeeds with address `a`, then `a` is the IP of a
network address of some interface of the snapshot that is up and not loopback,
`a` is global-unicast (hence not loopback, not link-local and not multicast),
and `a` is contained in no managed subnet of its own IP version: no subnet of
`V4Subnets()` when `a` is IPv4, no subnet of `V6Subnets()` when `a` is IPv6. -/
theorem resolveSystemAddr_sound (os : net.Host) (c : Cluster) (a : net.IP)
    (h : resolveSystemAddr os c = (some a, none)) :
    ∃ interfaces intf addrs ipAddr,
      os.Interfaces = .ok interfaces ∧ intf ∈ interfaces ∧ Active intf ∧
      intf.Addrs = .ok addrs ∧ net.Addr.ipNet ipAddr ∈ addrs ∧ ipAddr.IP = a ∧
      a.IsGlobalUnicast = true ∧ a.IsLoopback = false ∧ a.IsLinkLocalUnicast = false ∧
      a.IsMulticast = false ∧
      (a.To4 ≠ none →
        ∀ subnet ∈ c.config.NetworkSubnetsProvider.V4Subnets, subnet.Contains a = false) ∧
      (a.To4 = none →
        ∀ subnet ∈ c.config.NetworkSubnetsProvider.V6Subnets, subnet.Contains a = false) := by
  unfold resolveSystemAddr at h
  cases hos : os.Interfaces with
  | error e => simp [hos] at h
  | ok interfaces =>
    simp only [hos] at h
    rw [ifaceLoop_eq] at h
    split at h
    · simp at h
    · have hmem : a ∈ candidatesOf c.config.NetworkSubnetsProvider.V4Subnets
          c.config.NetworkSubnetsProvider.V6Subnets interfaces := by
        revert h
        simp only [show (none : Option net.IP).toList = [] from rfl, List.nil_append]
        cases candidatesOf c.config.NetworkSubnetsProvider.V4Subnets
          c.config.NetworkSubnetsProvider.V6Subnets interfaces with
        | nil => simp
        | cons x xs =>
          intro h
          simp at h
          simp [h]
      obtain ⟨intf, hintf, hout⟩ := List.mem_filterMap.1 hmem
      have hc : ifaceOutcome c.config.NetworkSubnetsProvider.V4Subnets
          c.config.NetworkSubnetsProvider.V6Subnets intf = .candidate a := by
        revert hout
        cases ifaceOutcome c.config.NetworkSubnetsProvider.V4Subnets
          c.config.NetworkSubnetsProvider.V6Subnets intf <;>
          simp [IfaceOutcome.candidate?]
      obtain ⟨hA, addrs, hadd, hm, hhead, _, _⟩ := ifaceOutcome_candidate _ _ intf a hc
      have haG : a ∈ globalUnicastIPs addrs := by
        have := List.mem_of_mem_head? hhead
        rcases List.mem_append.1 this with h1 | h1
        · exact (List.mem_filter.1 h1).1
        · exact (List.mem_filter.1 h1).1
      have hgu : a.IsGlobalUnicast = true := (List.mem_filter.1 haG).2
      obtain ⟨addr, haddr, hk⟩ := List.mem_filterMap.1 (List.mem_filter.1 haG).1
      have hman := hm a haG
      cases addr with
      | ipAddr ip => simp at hk
      | ipNet ipAddr =>
        simp at hk
        refine ⟨interfaces, intf, addrs, ipAddr, rfl, hintf, hA, hadd, haddr, hk, hgu, ?_, ?_,
          ?_, ?_, ?_⟩
        · simp [net.IP.IsGlobalUnicast] at hgu
          exact hgu.1.1.2
        · simp [net.IP.IsGlobalUnicast] at hgu
          exact hgu.2
        · simp [net.IP.IsGlobalUnicast] at hgu
          exact hgu.1.2
        · intro h4 subnet hs
          simp [inManagedSubnet, h4] at hman
          exact hman subnet hs
        · intro h4 subnet hs
          simp [inManagedSubnet, h4] at hman
          exact hman subnet hs

/-- Witness of C1: on the host with `lo`, `eth0` (`10.0.0.5`) and `docker0`
(`172.17.0.1`, managed), autodetection returns `10.0.0.5`. -/
theorem resolveSystemAddr_sound_witness :
    resolveSystemAddr exHost (exCluster "") = (some (net.IPv4 10 0 0 5), none) ∧
    ∃ interfaces intf addrs ipAddr,
      exHost.Interfaces = .ok interfaces ∧ intf ∈ interfaces ∧ Active intf ∧
      intf.Addrs = .ok addrs ∧ net.Addr.ipNet ipAddr ∈ addrs ∧
      ipAddr.IP = net.IPv4 10 0 0 5 ∧
      (net.IPv4 10 0 0 5).IsGlobalUnicast = true ∧ (net.IPv4 10 0 0 5).IsLoopback = false ∧
      (net.IPv4 10 0 0 5).IsLinkLocalUnicast = false ∧
      (net.IPv4 10 0 0 5).IsMulticast = false ∧
      ((net.IPv4 10 0 0 5).To4 ≠ none →
        ∀ subnet ∈ (exCluster "").config.NetworkSubnetsProvider.V4Subnets,
          subnet.Contains (net.IPv4 10 0 0 5) = false) ∧
      ((net.IPv4 10 0 0 5).To4 = none →
        ∀ subnet ∈ (exCluster "").config.NetworkSubnetsProvider.V6Subnets,
          subnet.Contains (net.IPv4 10 0 0 5) = false) :=
  ⟨by decide, resolveSystemAddr_sound exHost (exCluster "") (net.IPv4 10 0 0 5) (by decide)⟩

theorem ifAddrLoop_le_one (name : String) (addrs : List net.Addr) :
    ∀ (a4 a6 : Option net.IP),
      (a4.toList ++ ipv4Of (networkIPs addrs)).length ≤ 1 →
      (a6.toList ++ ipv6Of (networkIPs addrs)).length ≤ 1 →
      resolveInterfaceAddrLoop name addrs a4 a6 =
        match (a4.toList ++ ipv4Of (networkIPs addrs)) ++
            (a6.toList ++ ipv6Of (networkIPs addrs)) with
        | [] => (none, some (.noUsableAddr name))
        | a :: _ => (some a, none) := by
  induction addrs with
  | nil =>
    intro a4 a6 _ _
    cases a4 <;> cases a6 <;> simp [resolveInterfaceAddrLoop, networkIPs, ipv4Of, ipv6Of]
  | cons addr addrs ih =>
    intro a4 a6 c4 c6
    cases addr with
    | ipAddr ip =>
      have e : networkIPs (.ipAddr ip :: addrs) = networkIPs addrs := by simp [networkIPs]
      rw [e] at c4 c6 ⊢
      simpa [resolveInterfaceAddrLoop] using ih a4 a6 c4 c6
    | ipNet n =>
      have e : networkIPs (.ipNet n :: addrs) = n.IP :: networkIPs addrs := by simp [networkIPs]
      rw [e] at c4 c6 ⊢
      by_cases h4 : n.IP.To4 = none
      · cases a6 with
        | some x => simp [ipv6Of, h4] at c6
        | none =>
          have := ih a4 (some n.IP) (by simpa [ipv4Of, h4] using c4)
            (by simpa [ipv6Of, h4] using c6)
          simpa [resolveInterfaceAddrLoop, h4, ipv4Of, ipv6Of] using this
      · cases a4 with
        | some x => simp [ipv4Of, h4] at c4
        | none =>
          have := ih (some n.IP) a6 (by simpa [ipv4Of, h4] using c4)
            (by simpa [ipv6Of, h4] using c6)
          simpa [resolveInterfaceAddrLoop, h4, ipv4Of, ipv6Of] using this

theorem ifAddrLoop_ge_two (name : String) (addrs : List net.Addr) :
    ∀ (a4 a6 : Option net.IP),
      (2 ≤ (a4.toList ++ ipv4Of (networkIPs addrs)).length ∨
        2 ≤ (a6.toList ++ ipv6Of (networkIPs addrs)).length) →
      resolveInterfaceAddrLoop name addrs a4 a6 = (none, some (.moreThanOneIPv4 name)) ∨
      resolveInterfaceAddrLoop name addrs a4 a6 = (none, some (.moreThanOneIPv6 name)) := by
  induction addrs with
  | nil =>
    intro a4 a6 h
    have l4 := option_toList_length_le a4
    have l6 := option_toList_length_le a6
    simp [networkIPs, ipv4Of, ipv6Of] at h
    omega
  | cons addr addrs ih =>
    intro a4 a6 h
    cases addr with
    | ipAddr ip =>
      have e : networkIPs (.ipAddr ip :: addrs) = networkIPs addrs := by simp [networkIPs]
      rw [e] at h
      simpa [resolveInterfaceAddrLoop] using ih a4 a6 h
    | ipNet n =>
      have e : networkIPs (.ipNet n :: addrs) = n.IP :: networkIPs addrs := by simp [networkIPs]
      rw [e] at h
      by_cases h4 : n.IP.To4 = none
      · cases a6 with
        | some x => simp [resolveInterfaceAddrLoop, h4]
        | none =>
          have := ih a4 (some n.IP) (by simpa [ipv4Of, ipv6Of, h4] using h)
          simpa [resolveInterfaceAddrLoop, h4] using this
      · cases a4 with
        | some x => simp [resolveInterfaceAddrLoop, h4]
        | none =>
          have := ih (some n.IP) a6 (by simpa [ipv4Of, ipv6Of, h4] using h)
          simpa [resolveInterfaceAddrLoop, h4] using this

/-- C2. For a non-empty `advertiseAddr` the result of `resolveAdvertiseAddr` is the
same for every configuration (every `DefaultAdvertiseAddr`, every subnet
provider): the first tier alone decides. When the host it resolves is neither
the name of an interface nor a literal IP, the call fails with
`errBadAdvertiseAddr`. -/
theorem resolveAdvertiseAddr_tier1 (os : net.Host) (c c2 : Cluster)
    (advertiseAddr listenAddrPort : String) (h : advertiseAddr ≠ "") :
    resolveAdvertiseAddr os c advertiseAddr listenAddrPort =
      resolveAdvertiseAddr os c2 advertiseAddr listenAddrPort ∧
    ((∃ err, net.InterfaceByName os (advertiseHostOf advertiseAddr) = .error err) →
      net.ParseIP (advertiseHostOf advertiseAddr) = none →
      resolveAdvertiseAddr os c advertiseAddr listenAddrPort =
        ("", "", some .errBadAdvertiseAddr)) := by
  constructor
  · simp [resolveAdvertiseAddr, h]
  · rintro ⟨err, hi⟩ hp
    unfold advertiseHostOf at hi hp
    unfold resolveAdvertiseAddr
    rw [if_pos h]
    cases hs : net.SplitHostPort advertiseAddr with
    | error e =>
      simp only [hs] at hi hp ⊢
      simp [resolveAdvertiseHost, resolveInterfaceAddr, hi, hp]
    | ok hp2 =>
      obtain ⟨advertiseHost, advertisePort⟩ := hp2
      simp only [hs] at hi hp ⊢
      simp [resolveAdvertiseHost, resolveInterfaceAddr, hi, hp]

/-- Witness of C2: with `advertiseAddr = "bad::::"` and the valid default
`10.0.0.5`, resolution fails with `errBadAdvertiseAddr`, although the default
alone resolves. -/
theorem resolveAdvertiseAddr_tier1_witness :
    resolveAdvertiseAddr exHost (exCluster "") "bad::::" "7946" =
      resolveAdvertiseAddr exHost (exCluster "10.0.0.5") "bad::::" "7946" ∧
    resolveAdvertiseAddr exHost (exCluster "10.0.0.5") "bad::::" "7946" =
      ("", "", some .errBadAdvertiseAddr) ∧
    resolveAdvertiseAddr exHost (exCluster "10.0.0.5") "" "7946" = ("10.0.0.5", "7946", none) :=
  ⟨(resolveAdvertiseAddr_tier1 exHost (exCluster "") (exCluster "10.0.0.5") "bad::::" "7946"
      (by decide)).1,
    (resolveAdvertiseAddr_tier1 exHost (exCluster "10.0.0.5") (exCluster "") "bad::::" "7946"
      (by decide)).2 ⟨_, rfl⟩ (by decide),
    by decide⟩

theorem ifAddrLoop_cases (name : String) (addrs : List net.Addr) :
    ∀ (a4 a6 : Option net.IP),
      (∃ a, resolveInterfaceAddrLoop name addrs a4 a6 = (some a, none)) ∨
      resolveInterfaceAddrLoop name addrs a4 a6 = (none, some (.moreThanOneIPv4 name)) ∨
      resolveInterfaceAddrLoop name addrs a4 a6 = (none, some (.moreThanOneIPv6 name)) ∨
      resolveInterfaceAddrLoop name addrs a4 a6 = (none, some (.noUsableAddr name)) := by
  induction addrs with
  | nil =>
    intro a4 a6
    cases a4 <;> cases a6 <;> simp [resolveInterfaceAddrLoop]
  | cons addr addrs ih =>
    intro a4 a6
    cases addr with
    | ipAddr ip => simpa [resolveInterfaceAddrLoop] using ih a4 a6
    | ipNet n =>
      by_cases h4 : n.IP.To4 = none
      · cases a6 with
        | some x => simp [resolveInterfaceAddrLoop, h4]
        | none => simpa [resolveInterfaceAddrLoop, h4] using ih a4 (some n.IP)
      · cases a4 with
        | some x => simp [resolveInterfaceAddrLoop, h4]
        | none => simpa [resolveInterfaceAddrLoop, h4] using ih (some n.IP) a6

/-- The possible results of `resolveInterfaceAddr`. -/
theorem resolveInterfaceAddr_cases (os : net.Host) (name : String) :
    ((∃ err, net.InterfaceByName os name = .error err) ∧
      resolveInterfaceAddr os name = (none, some .errNoSuchInterface)) ∨
    ((∃ intf, net.InterfaceByName os name = .ok intf) ∧
      ((∃ a, resolveInterfaceAddr os name = (some a, none)) ∨
        (∃ err, resolveInterfaceAddr os name = (none, some (.netError err))) ∨
        resolveInterfaceAddr os name = (none, some (.moreThanOneIPv4 name)) ∨
        resolveInterfaceAddr os name = (none, some (.moreThanOneIPv6 name)) ∨
        resolveInterfaceAddr os name = (none, some (.noUsableAddr name)))) := by
  unfold resolveInterfaceAddr
  cases hi : net.InterfaceByName os name with
  | error e => exact Or.inl ⟨⟨e, rfl⟩, rfl⟩
  | ok intf =>
    refine Or.inr ⟨⟨intf, rfl⟩, ?_⟩
    cases ha : intf.Addrs with
    | error e =>
      simp only [ha]
      exact Or.inr (Or.inl ⟨e, rfl⟩)
    | ok addrs =>
      simp only [ha]
      rcases ifAddrLoop_cases name addrs none none with h | h | h | h
      · exact Or.inl h
      · exact Or.inr (Or.inr (Or.inl h))
      · exact Or.inr (Or.inr (Or.inr (Or.inl h)))
      · exact Or.inr (Or.inr (Or.inr (Or.inr h)))

/-- C3. For an existing interface whose address list holds at most one IPv4 and
at most one IPv6 network address, and at least one of them, `resolveInterfaceAddr`
succeeds; it returns the IPv4 address when there is one (whether or not there
is an IPv6 address), and the IPv6 address when there is no IPv4 one. -/
theorem resolveInterfaceAddr_single (os : net.Host) (specifiedInterface : String)
    (intf : net.Interface) (addrs : List net.Addr)
    (hi : net.InterfaceByName os specifiedInterface = .ok intf)
    (ha : intf.Addrs = .ok addrs)
    (h4 : (ipv4Of (networkIPs addrs)).length ≤ 1)
    (h6 : (ipv6Of (networkIPs addrs)).length ≤ 1)
    (hne : ipv4Of (networkIPs addrs) ++ ipv6Of (networkIPs addrs) ≠ []) :
    (∃ a, resolveInterfaceAddr os specifiedInterface = (some a, none)) ∧
    (∀ a, ipv4Of (networkIPs addrs) = [a] →
      resolveInterfaceAddr os specifiedInterface = (some a, none)) ∧
    (∀ b, ipv4Of (networkIPs addrs) = [] → ipv6Of (networkIPs addrs) = [b] →
      resolveInterfaceAddr os specifiedInterface = (some b, none)) := by
  have key := ifAddrLoop_le_one specifiedInterface addrs none none
    (by simpa using h4) (by simpa using h6)
  simp only [show (none : Option net.IP).toList = [] from rfl, List.nil_append] at key
  have hr : resolveInterfaceAddr os specifiedInterface =
      resolveInterfaceAddrLoop specifiedInterface addrs none none := by
    simp [resolveInterfaceAddr, hi, ha]
  rw [hr, key]
  refine ⟨?_, ?_, ?_⟩
  · cases hl : ipv4Of (networkIPs addrs) ++ ipv6Of (networkIPs addrs) with
    | nil => exact absurd hl hne
    | cons a rest => exact ⟨a, rfl⟩
  · intro a h
    simp [h]
  · intro b h hb
    simp [h, hb]

/-- Witness of C3: `dual0` carries one IPv4 and one IPv6 address (the IPv6 one
listed first), and its lookup returns the IPv4 address `10.0.0.5`. -/
theorem resolveInterfaceAddr_single_witness :
    resolveInterfaceAddr exHostNamed "dual0" = (some (net.IPv4 10 0 0 5), none) :=
  (resolveInterfaceAddr_single exHostNamed "dual0" exDual
    [.ipAddr [10, 0, 0, 9], .ipNet ⟨exIP6, exMask64⟩,
      .ipNet ⟨net.IPv4 10 0 0 5, [255, 255, 255, 0]⟩]
    rfl rfl (by decide) (by decide) (by decide)).2.1 (net.IPv4 10 0 0 5) (by decide)

/-- C4. For an existing interface whose address list holds two or more IPv4
network addresses, or two or more IPv6 ones, in any order and whatever else the
list holds, `resolveInterfaceAddr` returns no address and fails with "interface
... has more than one IPv4 address" or "... more than one IPv6 address". -/
theorem resolveInterfaceAddr_ambiguous (os : net.Host) (specifiedInterface : String)
    (intf : net.Interface) (addrs : List net.Addr)
    (hi : net.InterfaceByName os specifiedInterface = .ok intf)
    (ha : intf.Addrs = .ok addrs)
    (h : 2 ≤ (ipv4Of (networkIPs addrs)).length ∨ 2 ≤ (ipv6Of (networkIPs addrs)).length) :
    resolveInterfaceAddr os specifiedInterface =
        (none, some (.moreThanOneIPv4 specifiedInterface)) ∨
      resolveInterfaceAddr os specifiedInterface =
        (none, some (.moreThanOneIPv6 specifiedInterface)) := by
  have hr : resolveInterfaceAddr os specifiedInterface =
      resolveInterfaceAddrLoop specifiedInterface addrs none none := by
    simp [resolveInterfaceAddr, hi, ha]
  rw [hr]
  exact ifAddrLoop_ge_two specifiedInterface addrs none none (by simpa using h)

/-- Witness of C4: `multi0` carries two IPv4 addresses separated by an IPv6 one,
and its lookup fails with the IPv4 ambiguity error. -/
theorem resolveInterfaceAddr_ambiguous_witness :
    resolveInterfaceAddr exHostNamed "multi0" = (none, some (.moreThanOneIPv4 "multi0")) ∧
    (resolveInterfaceAddr exHostNamed "multi0" = (none, some (.moreThanOneIPv4 "multi0")) ∨
      resolveInterfaceAddr exHostNamed "multi0" = (none, some (.moreThanOneIPv6 "multi0"))) :=
  ⟨by decide,
    resolveInterfaceAddr_ambiguous exHostNamed "multi0" exTwoV4
      [.ipNet ⟨net.IPv4 10 0 0 5, [255, 255, 255, 0]⟩, .ipNet ⟨exIP6, exMask64⟩,
        .ipNet ⟨net.IPv4 10 0 0 6, [255, 255, 255, 0]⟩]
      rfl rfl (by decide)⟩

/-- C5. For a listen spec that splits into `(host, port)`: if `host` names an
interface that `resolveInterfaceAddr` resolves to `a`, `resolveListenAddr`
returns the string form of `a` with `port`; if `host` names no interface and
parses as a literal IP, it returns `host` unchanged with `port`. In particular
`"eth0:7946"` with `eth0` resolving to `10.0.0.5` gives `("10.0.0.5", "7946")`,
and `"203.0.113.9:7946"`, with no interface of that name, gives
`("203.0.113.9", "7946")`. -/
theorem resolveListenAddr_resolves (os : net.Host) :
    (∀ specifiedAddr host port, net.SplitHostPort specifiedAddr = .ok (host, port) →
      (∀ a, resolveInterfaceAddr os host = (some a, none) →
        resolveListenAddr os specifiedAddr = (a.String, port, none)) ∧
      ((∃ err, net.InterfaceByName os host = .error err) → net.ParseIP host ≠ none →
        resolveListenAddr os specifiedAddr = (host, port, none))) ∧
    (resolveInterfaceAddr os "eth0" = (some (net.IPv4 10 0 0 5), none) →
      resolveListenAddr os "eth0:7946" = ("10.0.0.5", "7946", none)) ∧
    ((∃ err, net.InterfaceByName os "203.0.113.9" = .error err) →
      resolveListenAddr os "203.0.113.9:7946" = ("203.0.113.9", "7946", none)) := by
  have main : ∀ specifiedAddr host port,
      net.SplitHostPort specifiedAddr = .ok (host, port) →
      (∀ a, resolveInterfaceAddr os host = (some a, none) →
        resolveListenAddr os specifiedAddr = (a.String, port, none)) ∧
      ((∃ err, net.InterfaceByName os host = .error err) → net.ParseIP host ≠ none →
        resolveListenAddr os specifiedAddr = (host, port, none)) := by
    intro specifiedAddr host port hs
    constructor
    · intro a hr
      simp [resolveListenAddr, hs, hr, net.String]
    · rintro ⟨err, hi⟩ hp
      simp [resolveListenAddr, hs, resolveInterfaceAddr, hi, hp]
  refine ⟨main, ?_, ?_⟩
  · intro hr
    have := (main "eth0:7946" "eth0" "7946" rfl).1 _ hr
    rw [this]
    decide
  · intro hi
    exact (main "203.0.113.9:7946" "203.0.113.9" "7946" rfl).2 hi (by decide)

/-- Witness of C5: on the host with `eth0` holding `10.0.0.5`, the listen specs
`"eth0:7946"` and `"203.0.113.9:7946"` resolve as stated. -/
theorem resolveListenAddr_resolves_witness :
    resolveListenAddr exHost "eth0:7946" = ("10.0.0.5", "7946", none) ∧
    resolveListenAddr exHost "203.0.113.9:7946" = ("203.0.113.9", "7946", none) :=
  ⟨(resolveListenAddr_resolves exHost).2.1 (by decide),
    (resolveListenAddr_resolves exHost).2.2 ⟨_, rfl⟩⟩

/-- When the lookup of an interface by name fails: the name is empty, the
interfaces cannot be listed, or no listed interface has that name. -/
theorem InterfaceByName_error_iff (os : net.Host) (name : String) :
    (∃ err, net.InterfaceByName os name = .error err) ↔
      (name = "" ∨ (∃ err, os.Interfaces = .error err) ∨
        ∃ interfaces, os.Interfaces = .ok interfaces ∧
          ∀ intf ∈ interfaces, intf.Name ≠ name) := by
  unfold net.InterfaceByName
  by_cases hn : name = ""
  · simp [hn]
  · rw [if_neg hn]
    cases hos : os.Interfaces with
    | error e => simp [hn]
    | ok ift =>
      simp only []
      cases hf : ift.find? (fun ifi => decide (name = ifi.Name)) with
      | none =>
        simp only []
        constructor
        · intro _
          refine Or.inr (Or.inr ⟨ift, rfl, ?_⟩)
          intro intf hintf heq
          have := List.find?_eq_none.1 hf intf hintf
          simp [heq] at this
        · intro _
          exact ⟨_, rfl⟩
      | some ifi =>
        have hmem := List.mem_of_find?_eq_some hf
        have hname : name = ifi.Name := by
          have := List.find?_some hf
          simpa using this
        simp only []
        constructor
        · rintro ⟨err, he⟩
          cases he
        · rintro (h0 | ⟨err, he⟩ | ⟨interfaces, hi, hall⟩)
          · exact absurd h0 hn
          · cases he
          · have : interfaces = ift := by
              cases hi
              rfl
            subst this
            exact absurd hname.symm (hall ifi hmem)

/-- C6, as amended. `resolveListenAddr` fails with `errBadListenAddr` exactly when
the spec splits into `(host, port)`, the lookup of `host` by name fails, and
`host` is not a parseable literal IP. The lookup fails when `host` is empty, when
the interfaces of the system cannot be listed, or when no listed interface has
that name. A spec that does not split as `host:port` fails with the distinct
"could not parse listen address" error. In particular `"not-an-addr:7946"`, with
no interface of that name, fails with `errBadListenAddr`. -/
theorem resolveListenAddr_bad (os : net.Host) (specifiedAddr : String) :
    ((resolveListenAddr os specifiedAddr).2.2 = some .errBadListenAddr ↔
      ∃ host port, net.SplitHostPort specifiedAddr = .ok (host, port) ∧
        (∃ err, net.InterfaceByName os host = .error err) ∧ net.ParseIP host = none) ∧
    (∀ host, (∃ err, net.InterfaceByName os host = .error err) ↔
      (host = "" ∨ (∃ err, os.Interfaces = .error err) ∨
        ∃ interfaces, os.Interfaces = .ok interfaces ∧
          ∀ intf ∈ interfaces, intf.Name ≠ host)) ∧
    ((∃ err, net.SplitHostPort specifiedAddr = .error err) →
      resolveListenAddr os specifiedAddr =
        ("", "", some (.couldNotParseListenAddr specifiedAddr))) ∧
    ((∃ err, net.InterfaceByName os "not-an-addr" = .error err) →
      resolveListenAddr os "not-an-addr:7946" = ("", "", some .errBadListenAddr)) := by
  refine ⟨?_, fun host => InterfaceByName_error_iff os host, ?_, ?_⟩
  · unfold resolveListenAddr
    cases hs : net.SplitHostPort specifiedAddr with
    | error e => simp
    | ok hp =>
      obtain ⟨host, port⟩ := hp
      rcases resolveInterfaceAddr_cases os host with ⟨⟨e, hi⟩, hr⟩ | ⟨⟨intf, hi⟩, hr⟩
      · by_cases hp : net.ParseIP host = none
        · simp [hr, hp, hi]
        · simp [hr, hp]
      · rcases hr with ⟨a, hr⟩ | ⟨e, hr⟩ | hr | hr | hr <;> simp [hr, hi]
  · rintro ⟨err, hs⟩
    simp [resolveListenAddr, hs]
  · rintro ⟨err, hi⟩
    have hs : net.SplitHostPort "not-an-addr:7946" = .ok ("not-an-addr", "7946") := rfl
    have hp : net.ParseIP "not-an-addr" = none := rfl
    simp [resolveListenAddr, hs, resolveInterfaceAddr, hi, hp]

/-- Witness of the amended C6: on the host with `lo`, `eth0` and `docker0`, the
spec `"not-an-addr:7946"` fails with `errBadListenAddr`, and the spec `"eth0"`,
which has no port, fails with the parse error. -/
theorem resolveListenAddr_bad_witness :
    resolveListenAddr exHost "not-an-addr:7946" = ("", "", some .errBadListenAddr) ∧
    resolveListenAddr exHost "eth0" = ("", "", some (.couldNotParseListenAddr "eth0")) :=
  ⟨(resolveListenAddr_bad exHost "not-an-addr:7946").2.2.2 ⟨_, rfl⟩,
    (resolveListenAddr_bad exHost "eth0").2.2.1 ⟨_, rfl⟩⟩

/-- C6 as stated fails. On the host where listing the interfaces fails, the
lookup of `eth0` fails for that reason of the operating system, whether or not
the system has an interface `eth0`: the snapshot does not say that no interface
is named `eth0`. Yet `resolveListenAddr("eth0:7946")` fails with
`errBadListenAddr`. -/
theorem resolveListenAddr_bad_counterexample :
    net.SplitHostPort "eth0:7946" = .ok ("eth0", "7946") ∧
    net.ParseIP "eth0" = none ∧
    net.InterfaceByName exHostDown "eth0" =
      .error ⟨"route ip+net: netlinkrib: too many open files"⟩ ∧
    (¬ ∃ interfaces, exHostDown.Interfaces = .ok interfaces ∧
      ∀ intf ∈ interfaces, intf.Name ≠ "eth0") ∧
    resolveListenAddr exHostDown "eth0:7946" = ("", "", some .errBadListenAddr) := by
  refine ⟨rfl, rfl, rfl, ?_, by decide⟩
  rintro ⟨interfaces, h, _⟩
  cases h

theorem filterMap_two {α β : Type} (f : α → Option β) (l : List α) :
    ∀ (m n : Nat) (i j : α), m ≠ n → l[m]? = some i → l[n]? = some j →
      (f i).isSome = true → (f j).isSome = true → 2 ≤ (l.filterMap f).length := by
  induction l with
  | nil => intro m n i j _ hi; simp at hi
  | cons x t ih =>
    intro m n i j hmn hi hj fi fj
    have mono : (t.filterMap f).length ≤ ((x :: t).filterMap f).length := by
      rw [List.filterMap_cons]
      cases f x <;> simp
    have pos : ∀ (k : Nat) (y : α), t[k]? = some y → (f y).isSome = true →
        1 ≤ (t.filterMap f).length := by
      intro k y hk fy
      obtain ⟨b, hb⟩ := Option.isSome_iff_exists.1 fy
      have : b ∈ t.filterMap f := List.mem_filterMap.2 ⟨y, List.getElem?_mem hk, hb⟩
      exact List.length_pos_of_mem this
    cases m with
    | zero =>
      cases n with
      | zero => exact absurd rfl hmn
      | succ n =>
        simp at hi hj
        subst hi
        obtain ⟨b, hb⟩ := Option.isSome_iff_exists.1 fi
        have := pos n j hj fj
        rw [List.filterMap_cons, hb]
        simp
        omega
    | succ m =>
      cases n with
      | zero =>
        simp at hi hj
        subst hj
        obtain ⟨b, hb⟩ := Option.isSome_iff_exists.1 fj
        have := pos m i hi fi
        rw [List.filterMap_cons, hb]
        simp
        omega
      | succ n =>
        simp at hi hj
        have := ih m n i j (by omega) hi hj fi fj
        omega

theorem unmanaged_of_managedIPs (v4 v6 : List net.IPNet) (intf : net.Interface)
    (addrs : List net.Addr) (hadd : intf.Addrs = .ok addrs) (hm : managedIPs v4 v6 intf = []) :
    ∀ ip ∈ globalUnicastIPs addrs, inManagedSubnet v4 v6 ip = false := by
  intro ip hip
  unfold managedIPs listedAddrs at hm
  simp only [hadd] at hm
  rw [List.filter_eq_nil_iff] at hm
  simpa using hm ip hip

theorem ipv4Of_append_ipv6Of_eq_nil {l : List net.IP} (h : ipv4Of l ++ ipv6Of l = []) :
    l = [] := by
  cases l with
  | nil => rfl
  | cons x t =>
    by_cases h4 : x.To4 = none <;> simp [ipv4Of, ipv6Of, h4] at h

/-- An active interface with a candidate and no managed address is not skipped:
it offers a candidate or fails. -/
theorem ifaceOutcome_of_candidate (v4 v6 : List net.IPNet) (intf : net.Interface)
    (hc : candidateIPs v4 v6 intf ≠ []) (hm : managedIPs v4 v6 intf = []) :
    ((ifaceOutcome v4 v6 intf).fail?).isSome = true ∨
      ((ifaceOutcome v4 v6 intf).candidate?).isSome = true := by
  unfold candidateIPs at hc
  by_cases hA : Active intf
  · rw [if_pos hA] at hc
    cases hadd : intf.Addrs with
    | error e => simp [hadd] at hc
    | ok addrs =>
      simp only [hadd] at hc
      have hun := unmanaged_of_managedIPs v4 v6 intf addrs hadd hm
      rw [qualifyingIPs_of_unmanaged v4 v6 addrs hun] at hc
      rw [ifaceOutcome_of_unmanaged v4 v6 intf addrs hA hadd hun]
      split
      · left; rfl
      · right
        cases hh : (ipv4Of (globalUnicastIPs addrs) ++ ipv6Of (globalUnicastIPs addrs)).head? with
        | some a => rfl
        | none =>
          rw [List.head?_eq_none_iff] at hh
          exact absurd (ipv4Of_append_ipv6Of_eq_nil hh) hc
  · rw [if_neg hA] at hc
    exact absurd rfl hc

theorem ifaceLoop_two (v4 v6 : List net.IPNet) (l : List net.Interface) (m n : Nat)
    (i j : net.Interface) (hmn : m ≠ n) (hi : l[m]? = some i) (hj : l[n]? = some j)
    (hci : candidateIPs v4 v6 i ≠ []) (hcj : candidateIPs v4 v6 j ≠ [])
    (hmi : managedIPs v4 v6 i = []) (hmj : managedIPs v4 v6 j = []) :
    resolveSystemAddrIfaceLoop v4 v6 l none = (none, some .errMultipleIPs) := by
  rw [ifaceLoop_eq]
  apply if_pos
  rcases ifaceOutcome_of_candidate v4 v6 i hci hmi with h1 | h1
  · left
    exact List.any_eq_true.2 ⟨i, List.getElem?_mem hi, h1⟩
  · rcases ifaceOutcome_of_candidate v4 v6 j hcj hmj with h2 | h2
    · left
      exact List.any_eq_true.2 ⟨j, List.getElem?_mem hj, h2⟩
    · right
      have := filterMap_two (fun intf => (ifaceOutcome v4 v6 intf).candidate?) l m n i j hmn
        hi hj h1 h2
      simpa [candidatesOf] using this

/-- C7. In a snapshot where two distinct interfaces (at positions `m ≠ n`) are up
and not loopback and each hold a global-unicast address outside the managed
subnets, and no interface holds a global-unicast address inside a managed
subnet, `resolveSystemAddr` fails with `errMultipleIPs`, and so does
`resolveAdvertiseAddr("", port)` with an empty `DefaultAdvertiseAddr`: none of
the candidates is picked. -/
theorem resolveSystemAddr_multiple (os : net.Host) (c : Cluster)
    (interfaces : List net.Interface) (m n : Nat) (i j : net.Interface)
    (hos : os.Interfaces = .ok interfaces) (hmn : m ≠ n)
    (hi : interfaces[m]? = some i) (hj : interfaces[n]? = some j)
    (hci : candidateIPs c.config.NetworkSubnetsProvider.V4Subnets
      c.config.NetworkSubnetsProvider.V6Subnets i ≠ [])
    (hcj : candidateIPs c.config.NetworkSubnetsProvider.V4Subnets
      c.config.NetworkSubnetsProvider.V6Subnets j ≠ [])
    (hm : ∀ k ∈ interfaces, managedIPs c.config.NetworkSubnetsProvider.V4Subnets
      c.config.NetworkSubnetsProvider.V6Subnets k = []) :
    resolveSystemAddr os c = (none, some .errMultipleIPs) ∧
    (c.config.DefaultAdvertiseAddr = "" → ∀ listenAddrPort,
      resolveAdvertiseAddr os c "" listenAddrPort = ("", "", some .errMultipleIPs)) := by
  have key : resolveSystemAddr os c = (none, some .errMultipleIPs) := by
    unfold resolveSystemAddr
    simp only [hos]
    exact ifaceLoop_two _ _ interfaces m n i j hmn hi hj hci hcj
      (hm i (List.getElem?_mem hi)) (hm j (List.getElem?_mem hj))
  refine ⟨key, ?_⟩
  intro hd listenAddrPort
  simp [resolveAdvertiseAddr, hd, key]

/-- Witness of C7: on the host with `eth0` (`10.0.0.5`) and `eth1`
(`192.168.1.7`), autodetection fails with `errMultipleIPs`. -/
theorem resolveSystemAddr_multiple_witness :
    resolveSystemAddr exHostPlain (exCluster "") = (none, some .errMultipleIPs) ∧
    resolveAdvertiseAddr exHostPlain (exCluster "") "" "7946" =
      ("", "", some .errMultipleIPs) :=
  ⟨(resolveSystemAddr_multiple exHostPlain (exCluster "") [exLo, exEth0, exEth1] 1 2 exEth0
      exEth1 rfl (by decide) rfl rfl (by decide) (by decide) (by decide)).1,
    (resolveSystemAddr_multiple exHostPlain (exCluster "") [exLo, exEth0, exEth1] 1 2 exEth0
      exEth1 rfl (by decide) rfl rfl (by decide) (by decide) (by decide)).2 rfl "7946"⟩

theorem ifaceLoop_append_skip (v4 v6 : List net.IPNet) (pre rest : List net.Interface)
    (h : ∀ k ∈ pre, ifaceOutcome v4 v6 k = .skip) (systemAddr : Option net.IP) :
    resolveSystemAddrIfaceLoop v4 v6 (pre ++ rest) systemAddr =
      resolveSystemAddrIfaceLoop v4 v6 rest systemAddr := by
  induction pre with
  | nil => rfl
  | cons x t ih =>
    rw [List.cons_append, ifaceLoop_step, h x (List.mem_cons_self _ _)]
    exact ih (fun k hk => h k (List.mem_cons_of_mem _ hk))

theorem ifaceLoop_remove_skip (v4 v6 : List net.IPNet) (pre post : List net.Interface)
    (i : net.Interface) (h : ifaceOutcome v4 v6 i = .skip) (systemAddr : Option net.IP) :
    resolveSystemAddrIfaceLoop v4 v6 (pre ++ i :: post) systemAddr =
      resolveSystemAddrIfaceLoop v4 v6 (pre ++ post) systemAddr := by
  induction pre generalizing systemAddr with
  | nil =>
    rw [List.nil_append, List.nil_append, ifaceLoop_step, h]
  | cons x t ih =>
    rw [List.cons_append, List.cons_append, ifaceLoop_step, ifaceLoop_step]
    cases ifaceOutcome v4 v6 x with
    | skip => exact ih systemAddr
    | fail err => rfl
    | candidate a =>
      simp only []
      rw [ih (some a)]

theorem systemCandidates_append (v4 v6 : List net.IPNet) (l1 l2 : List net.Interface) :
    systemCandidates v4 v6 (l1 ++ l2) = systemCandidates v4 v6 l1 ++ systemCandidates v4 v6 l2 := by
  simp [systemCandidates]

theorem systemCandidates_cons (v4 v6 : List net.IPNet) (i : net.Interface)
    (l : List net.Interface) :
    systemCandidates v4 v6 (i :: l) = candidateIPs v4 v6 i ++ systemCandidates v4 v6 l := by
  simp [systemCandidates]

theorem candidateIPs_of_systemCandidates_nil (v4 v6 : List net.IPNet)
    (l : List net.Interface) (h : systemCandidates v4 v6 l = []) :
    ∀ k ∈ l, candidateIPs v4 v6 k = [] := by
  intro k hk
  unfold systemCandidates at h
  rw [List.flatten_eq_nil_iff] at h
  exact h _ (List.mem_map_of_mem _ hk)

theorem eq_singleton_of_mem_of_length {α : Type} {l : List α} {a : α} (hm : a ∈ l)
    (hl : l.length ≤ 1) : l = [a] := by
  cases l with
  | nil => simp at hm
  | cons x t =>
    cases t with
    | nil =>
      simp at hm
      rw [hm]
    | cons y t => simp at hl

/-- Exactly one IPv4 and one IPv6 candidate, both on the interface `i`: `i`
holds exactly these two and no other interface holds a candidate. -/
theorem candidates_on_one_interface (v4 v6 : List net.IPNet) (pre post : List net.Interface)
    (i : net.Interface) (a4 a6 : net.IP)
    (h4 : ipv4Of (systemCandidates v4 v6 (pre ++ i :: post)) = [a4])
    (h6 : ipv6Of (systemCandidates v4 v6 (pre ++ i :: post)) = [a6])
    (hi4 : a4 ∈ candidateIPs v4 v6 i) (hi6 : a6 ∈ candidateIPs v4 v6 i) :
    ipv4Of (candidateIPs v4 v6 i) = [a4] ∧ ipv6Of (candidateIPs v4 v6 i) = [a6] ∧
      systemCandidates v4 v6 pre = [] ∧ systemCandidates v4 v6 post = [] := by
  have t4 : a4.To4 ≠ none := by
    have : a4 ∈ ipv4Of (systemCandidates v4 v6 (pre ++ i :: post)) := by simp [h4]
    simpa using (List.mem_filter.1 this).2
  have t6 : a6.To4 = none := by
    have : a6 ∈ ipv6Of (systemCandidates v4 v6 (pre ++ i :: post)) := by simp [h6]
    simpa using (List.mem_filter.1 this).2
  have m4 : a4 ∈ ipv4Of (candidateIPs v4 v6 i) := List.mem_filter.2 ⟨hi4, by simpa using t4⟩
  have m6 : a6 ∈ ipv6Of (candidateIPs v4 v6 i) := List.mem_filter.2 ⟨hi6, by simpa using t6⟩
  have p4 := List.length_pos_of_mem m4
  have p6 := List.length_pos_of_mem m6
  rw [systemCandidates_append, systemCandidates_cons] at h4 h6
  have e4 := congrArg List.length h4
  have e6 := congrArg List.length h6
  simp only [ipv4Of, ipv6Of, List.filter_append, List.length_append, List.length_singleton]
    at e4 e6
  simp only [ipv4Of, ipv6Of] at p4 p6
  refine ⟨eq_singleton_of_mem_of_length m4 (by simp only [ipv4Of]; omega),
    eq_singleton_of_mem_of_length m6 (by simp only [ipv6Of]; omega), ?_, ?_⟩
  · apply ipv4Of_append_ipv6Of_eq_nil
    rw [← List.length_eq_zero, List.length_append]
    simp only [ipv4Of, ipv6Of]
    omega
  · apply ipv4Of_append_ipv6Of_eq_nil
    rw [← List.length_eq_zero, List.length_append]
    simp only [ipv4Of, ipv6Of]
    omega

/-- C8, as amended. When exactly one IPv4 and exactly one IPv6 address qualify as
autodetection candidates: if both sit on one interface, which holds no
global-unicast address inside a managed subnet, `resolveSystemAddr` returns the
IPv4 address; if they sit on two different interfaces, neither of which holds a
global-unicast address inside a managed subnet, it fails with `errMultipleIPs`. -/
theorem resolveSystemAddr_prefers_ipv4 (os : net.Host) (c : Cluster)
    (interfaces : List net.Interface) (a4 a6 : net.IP)
    (hos : os.Interfaces = .ok interfaces)
    (h4 : ipv4Of (systemCandidates c.config.NetworkSubnetsProvider.V4Subnets
      c.config.NetworkSubnetsProvider.V6Subnets interfaces) = [a4])
    (h6 : ipv6Of (systemCandidates c.config.NetworkSubnetsProvider.V4Subnets
      c.config.NetworkSubnetsProvider.V6Subnets interfaces) = [a6]) :
    (∀ i ∈ interfaces,
      a4 ∈ candidateIPs c.config.NetworkSubnetsProvider.V4Subnets
        c.config.NetworkSubnetsProvider.V6Subnets i →
      a6 ∈ candidateIPs c.config.NetworkSubnetsProvider.V4Subnets
        c.config.NetworkSubnetsProvider.V6Subnets i →
      managedIPs c.config.NetworkSubnetsProvider.V4Subnets
        c.config.NetworkSubnetsProvider.V6Subnets i = [] →
      resolveSystemAddr os c = (some a4, none)) ∧
    (∀ (m n : Nat) (i j : net.Interface), m ≠ n →
      interfaces[m]? = some i → interfaces[n]? = some j →
      a4 ∈ candidateIPs c.config.NetworkSubnetsProvider.V4Subnets
        c.config.NetworkSubnetsProvider.V6Subnets i →
      a6 ∈ candidateIPs c.config.NetworkSubnetsProvider.V4Subnets
        c.config.NetworkSubnetsProvider.V6Subnets j →
      managedIPs c.config.NetworkSubnetsProvider.V4Subnets
        c.config.NetworkSubnetsProvider.V6Subnets i = [] →
      managedIPs c.config.NetworkSubnetsProvider.V4Subnets
        c.config.NetworkSubnetsProvider.V6Subnets j = [] →
      resolveSystemAddr os c = (none, some .errMultipleIPs)) := by
  have hres : resolveSystemAddr os c =
      resolveSystemAddrIfaceLoop c.config.NetworkSubnetsProvider.V4Subnets
        c.config.NetworkSubnetsProvider.V6Subnets interfaces none := by
    simp [resolveSystemAddr, hos]
  rw [hres]
  generalize c.config.NetworkSubnetsProvider.V4Subnets = v4 at *
  generalize c.config.NetworkSubnetsProvider.V6Subnets = v6 at *
  constructor
  · intro i hi hi4 hi6 hm
    obtain ⟨pre, post, rfl⟩ := List.append_of_mem hi
    obtain ⟨k4, k6, kpre, kpost⟩ := candidates_on_one_interface v4 v6 pre post i a4 a6 h4 h6
      hi4 hi6
    have spre : ∀ k ∈ pre, ifaceOutcome v4 v6 k = .skip := fun k hk =>
      ifaceOutcome_skip_of_no_candidate v4 v6 k
        (candidateIPs_of_systemCandidates_nil v4 v6 pre kpre k hk)
    have spost : ∀ k ∈ post, ifaceOutcome v4 v6 k = .skip := fun k hk =>
      ifaceOutcome_skip_of_no_candidate v4 v6 k
        (candidateIPs_of_systemCandidates_nil v4 v6 post kpost k hk)
    have hout : ifaceOutcome v4 v6 i = .candidate a4 := by
      have hA : Active i := by
        by_contra hA
        simp [candidateIPs, hA] at hi4
      cases hadd : i.Addrs with
      | error e => simp [candidateIPs, hA, hadd] at hi4
      | ok addrs =>
        have hun := unmanaged_of_managedIPs v4 v6 i addrs hadd hm
        have hc : candidateIPs v4 v6 i = globalUnicastIPs addrs := by
          simp [candidateIPs, hA, hadd, qualifyingIPs_of_unmanaged v4 v6 addrs hun]
        rw [hc] at k4 k6
        rw [ifaceOutcome_of_unmanaged v4 v6 i addrs hA hadd hun, k4, k6]
        simp
    rw [ifaceLoop_append_skip v4 v6 pre (i :: post) spre, ifaceLoop_step, hout]
    simp only [ne_eq, not_true_eq_false, if_false]
    have := ifaceLoop_append_skip v4 v6 post [] spost (some a4)
    rw [List.append_nil] at this
    rw [this]
    simp [resolveSystemAddrIfaceLoop]
  · intro m n i j hmn hi hj hi4 hj6 hmi hmj
    exact ifaceLoop_two v4 v6 interfaces m n i j hmn hi hj (List.ne_nil_of_mem hi4)
      (List.ne_nil_of_mem hj6) hmi hmj

/-- Witness of the amended C8: on the host with `lo` and `dual0`, whose IPv6
address is listed before its IPv4 one, autodetection returns the IPv4 address
`10.0.0.5`. -/
theorem resolveSystemAddr_prefers_ipv4_witness :
    resolveSystemAddr exHostDual (exCluster "") = (some (net.IPv4 10 0 0 5), none) :=
  (resolveSystemAddr_prefers_ipv4 exHostDual (exCluster "") [exLo, exDual] (net.IPv4 10 0 0 5)
    exIP6 rfl (by decide) (by decide)).1 exDual (by simp) (by decide) (by decide) (by decide)

/-- C8 as stated fails. On the host with `eth0` (`10.0.0.5`) and `eth6`
(`2001:db8::1`) exactly one IPv4 and one IPv6 address qualify, on two different
interfaces, and `resolveSystemAddr` fails with `errMultipleIPs`. On the host with
`mixed0` exactly one IPv4 and one IPv6 address qualify, on the same interface,
which also holds the managed `172.17.0.1`, and `resolveSystemAddr` fails with
`errNoIP`. -/
theorem resolveSystemAddr_prefers_ipv4_counterexample :
    (exHostSplit.Interfaces = .ok [exLo, exEth0, exEth6] ∧
      ipv4Of (systemCandidates exProvider.V4Subnets exProvider.V6Subnets
        [exLo, exEth0, exEth6]) = [net.IPv4 10 0 0 5] ∧
      ipv6Of (systemCandidates exProvider.V4Subnets exProvider.V6Subnets
        [exLo, exEth0, exEth6]) = [exIP6] ∧
      resolveSystemAddr exHostSplit (exCluster "") = (none, some .errMultipleIPs)) ∧
    (exHostMixed.Interfaces = .ok [exLo, exMixed] ∧
      ipv4Of (systemCandidates exProvider.V4Subnets exProvider.V6Subnets
        [exLo, exMixed]) = [net.IPv4 10 0 0 5] ∧
      ipv6Of (systemCandidates exProvider.V4Subnets exProvider.V6Subnets
        [exLo, exMixed]) = [exIP6] ∧
      resolveSystemAddr exHostMixed (exCluster "") = (none, some .errNoIP)) := by
  refine ⟨⟨rfl, ?_, ?_, ?_⟩, ⟨rfl, ?_, ?_, ?_⟩⟩ <;> decide

/-- C9, as amended. An interface `i` that carries a global-unicast address inside
a managed subnet of that address's version, preceded in the address list of `i`
by at most one global-unicast address of each IP version, is skipped entirely by
`resolveSystemAddr`: it contributes no candidate and raises no error, and the
result equals the result on the snapshot with `i` removed, whatever addresses
follow the managed one. -/
theorem resolveSystemAddr_skips_managed (os : net.Host) (c : Cluster)
    (pre post : List net.Interface) (i : net.Interface) (addrsPre addrsPost : List net.Addr)
    (ipAddr : net.IPNet)
    (hos : os.Interfaces = .ok (pre ++ i :: post))
    (hadd : i.Addrs = .ok (addrsPre ++ .ipNet ipAddr :: addrsPost))
    (hg : ipAddr.IP.IsGlobalUnicast = true)
    (hm : inManagedSubnet c.config.NetworkSubnetsProvider.V4Subnets
      c.config.NetworkSubnetsProvider.V6Subnets ipAddr.IP = true)
    (h4 : (ipv4Of (globalUnicastIPs addrsPre)).length ≤ 1)
    (h6 : (ipv6Of (globalUnicastIPs addrsPre)).length ≤ 1) :
    resolveSystemAddr os c = resolveSystemAddr { Interfaces := .ok (pre ++ post) } c := by
  have hskip : ifaceOutcome c.config.NetworkSubnetsProvider.V4Subnets
      c.config.NetworkSubnetsProvider.V6Subnets i = .skip := by
    unfold ifaceOutcome
    split
    · rfl
    · simp only [hadd]
      rw [addrLoop_skip _ _ ipAddr addrsPost hg hm addrsPre none none (by simpa using h4)
        (by simpa using h6)]
  simp only [resolveSystemAddr, hos]
  exact ifaceLoop_remove_skip _ _ pre post i hskip none

/-- Witness of the amended C9: `mixed0` lists `10.0.0.5` and `2001:db8::1` before
the managed `172.17.0.1`; it is skipped, and the result is the address of
`eth1`, as on the host without `mixed0`. -/
theorem resolveSystemAddr_skips_managed_witness :
    resolveSystemAddr exHostSkip (exCluster "") =
      resolveSystemAddr { Interfaces := .ok ([exLo] ++ [exEth1]) } (exCluster "") ∧
    resolveSystemAddr exHostSkip (exCluster "") = (some (net.IPv4 192 168 1 7), none) :=
  ⟨resolveSystemAddr_skips_managed exHostSkip (exCluster "") [exLo] [exEth1] exMixed
      [.ipNet ⟨net.IPv4 10 0 0 5, [255, 255, 255, 0]⟩, .ipNet ⟨exIP6, exMask64⟩] []
      ⟨net.IPv4 172 17 0 1, [255, 255, 0, 0]⟩ rfl rfl (by decide) (by decide) (by decide)
      (by decide),
    by decide⟩

/-- C9 as stated fails. The interface `late0` carries the global-unicast address
`172.17.0.1` inside a managed subnet, listed after `10.0.0.5` and `10.0.0.6`; on
the host with `lo`, `late0` and `eth1`, `resolveSystemAddr` fails with
`errMultipleIPs`, while on the host without `late0` it returns `192.168.1.7`. -/
theorem resolveSystemAddr_skips_managed_counterexample :
    exHostLate.Interfaces = .ok ([exLo] ++ exLate :: [exEth1]) ∧
    exHostLateRemoved.Interfaces = .ok ([exLo] ++ [exEth1]) ∧
    managedIPs exProvider.V4Subnets exProvider.V6Subnets exLate = [net.IPv4 172 17 0 1] ∧
    resolveSystemAddr exHostLate (exCluster "") = (none, some .errMultipleIPs) ∧
    resolveSystemAddr exHostLateRemoved (exCluster "") =
      (some (net.IPv4 192 168 1 7), none) := by
  refine ⟨rfl, rfl, ?_, ?_, ?_⟩ <;> decide

/-- C10, as amended. If listing the interfaces fails, `resolveSystemAddr` returns
that error of the `net` package unchanged. If listing the addresses of an
interface fails during autodetection, the interface is skipped: the result is
that of the snapshot without it. If looking up an interface by name fails, for
whatever reason, `resolveInterfaceAddr` returns `errNoSuchInterface`; if the
lookup succeeds and listing the addresses of the interface fails, it returns
that error of the `net` package unchanged. -/
theorem enumeration_failures (os : net.Host) (c : Cluster) :
    (∀ err, os.Interfaces = .error err →
      resolveSystemAddr os c = (none, some (.netError err))) ∧
    (∀ pre post i err, os.Interfaces = .ok (pre ++ i :: post) → i.Addrs = .error err →
      resolveSystemAddr os c = resolveSystemAddr { Interfaces := .ok (pre ++ post) } c) ∧
    (∀ name err, net.InterfaceByName os name = .error err →
      resolveInterfaceAddr os name = (none, some .errNoSuchInterface)) ∧
    (∀ name intf err, net.InterfaceByName os name = .ok intf → intf.Addrs = .error err →
      resolveInterfaceAddr os name = (none, some (.netError err))) := by
  refine ⟨?_, ?_, ?_, ?_⟩
  · intro err h
    simp [resolveSystemAddr, h]
  · intro pre post i err hos hadd
    have hskip : ifaceOutcome c.config.NetworkSubnetsProvider.V4Subnets
        c.config.NetworkSubnetsProvider.V6Subnets i = .skip := by
      unfold ifaceOutcome
      split
      · rfl
      · simp only [hadd]
    simp only [resolveSystemAddr, hos]
    exact ifaceLoop_remove_skip _ _ pre post i hskip none
  · intro name err h
    simp [resolveInterfaceAddr, h]
  · intro name intf err h hadd
    simp [resolveInterfaceAddr, h, hadd]

/-- Witness of the amended C10, on the host whose interface listing fails and on
the host whose interface `broken0` cannot list its addresses. -/
theorem enumeration_failures_witness :
    resolveSystemAddr exHostDown (exCluster "") =
      (none, some (.netError ⟨"route ip+net: netlinkrib: too many open files"⟩)) ∧
    resolveSystemAddr exHostBroken (exCluster "") =
      resolveSystemAddr { Interfaces := .ok ([exLo] ++ [exEth1]) } (exCluster "") ∧
    resolveInterfaceAddr exHostDown "eth0" = (none, some .errNoSuchInterface) ∧
    resolveInterfaceAddr exHostBroken "broken0" =
      (none, some (.netError ⟨"route ip+net: no such device"⟩)) :=
  ⟨(enumeration_failures exHostDown (exCluster "")).1 _ rfl,
    (enumeration_failures exHostBroken (exCluster "")).2.1 [exLo] [exEth1] exBroken _ rfl rfl,
    (enumeration_failures exHostDown (exCluster "")).2.2.1 "eth0" _ rfl,
    (enumeration_failures exHostBroken (exCluster "")).2.2.2 "broken0" exBroken _ rfl rfl⟩

/-- C10 as stated fails. On the host where `broken0` cannot list its addresses,
`resolveSystemAddr` does not return that error: it succeeds with the address of
`eth1`. On the host where listing the interfaces fails, the lookup of `eth0` by
name fails with that error of the operating system, and `resolveInterfaceAddr`
returns `errNoSuchInterface` instead of it. -/
theorem enumeration_failures_counterexample :
    (exHostBroken.Interfaces = .ok [exLo, exBroken, exEth1] ∧
      exBroken.Addrs = .error ⟨"route ip+net: no such device"⟩ ∧
      resolveSystemAddr exHostBroken (exCluster "") = (some (net.IPv4 192 168 1 7), none)) ∧
    (net.InterfaceByName exHostDown "eth0" =
        .error ⟨"route ip+net: netlinkrib: too many open files"⟩ ∧
      resolveInterfaceAddr exHostDown "eth0" = (none, some .errNoSuchInterface)) := by
  refine ⟨⟨rfl, rfl, ?_⟩, ⟨rfl, ?_⟩⟩ <;> decide

/-- C11 fails on the code. The advertise spec `"10.0.0.5:"` splits into the host
`10.0.0.5` and an empty port; with no interface of that name, whatever the
configuration and the listen port, `resolveAdvertiseAddr` succeeds and returns
the empty port: `listenAddrPort` is not filled in. -/
theorem resolveAdvertiseAddr_empty_port (c : Cluster) (listenAddrPort : String) :
    net.SplitHostPort "10.0.0.5:" = .ok ("10.0.0.5", "") ∧
    resolveAdvertiseAddr exHost c "10.0.0.5:" listenAddrPort = ("10.0.0.5", "", none) ∧
    resolveAdvertiseAddr exHost c "10.0.0.5" listenAddrPort =
      ("10.0.0.5", listenAddrPort, none) := by
  refine ⟨rfl, ?_, ?_⟩
  · have hs : net.SplitHostPort "10.0.0.5:" = .ok ("10.0.0.5", "") := rfl
    have hi : resolveInterfaceAddr exHost "10.0.0.5" = (none, some .errNoSuchInterface) := by
      decide
    have hp : net.ParseIP "10.0.0.5" = some (net.IPv4 10 0 0 5) := by decide
    have hne : ("10.0.0.5:" : String) ≠ "" := by decide
    simp [resolveAdvertiseAddr, hne, hs, resolveAdvertiseHost, hi, hp]
  · have hs : net.SplitHostPort "10.0.0.5" = .error ⟨"missing port in address"⟩ := rfl
    have hi : resolveInterfaceAddr exHost "10.0.0.5" = (none, some .errNoSuchInterface) := by
      decide
    have hp : net.ParseIP "10.0.0.5" = some (net.IPv4 10 0 0 5) := by decide
    have hne : ("10.0.0.5" : String) ≠ "" := by decide
    simp [resolveAdvertiseAddr, hne, hs, resolveAdvertiseHost, hi, hp]

theorem foldl_append_length (P : Nat → Prop) [DecidablePred P] (g : Nat → Char)
    (l : List Nat) :
    ∀ dst : List Char,
      dst.length ≤ (l.foldl (fun dst j => if P j then dst ++ [g j] else dst) dst).length := by
  induction l with
  | nil => intro dst; simp
  | cons x t ih =>
    intro dst
    simp only [List.foldl]
    by_cases hx : P x
    · rw [if_pos hx]
      have := ih (dst ++ [g x])
      simp only [List.length_append, List.length_singleton] at this
      omega
    · rw [if_neg hx]
      exact ih dst

theorem appendHex_length (dst : List Char) (i : Nat) :
    dst.length + 1 ≤ (net.appendHex dst i).length := by
  unfold net.appendHex
  split
  · simp
  · rename_i h
    have h0 : Nat.shiftRight i (0 * 4) > 0 := by
      simp [Nat.shiftRight]
      omega
    have e : ([7, 6, 5, 4, 3, 2, 1, 0] : List Nat) = [7, 6, 5, 4, 3, 2, 1] ++ [0] := rfl
    have key := foldl_append_length (fun j => Nat.shiftRight i (j * 4) > 0)
      (fun j => Nat.digitChar (Nat.land (Nat.shiftRight i (j * 4)) 0xf)) [7, 6, 5, 4, 3, 2, 1] dst
    rw [e, List.foldl_append]
    generalize List.foldl _ dst [7, 6, 5, 4, 3, 2, 1] = X at key ⊢
    simp only [List.foldl]
    rw [if_pos h0]
    simp only [List.length_append, List.length_singleton]
    omega

theorem printGroups_length (p : List Nat) (e : Option (Nat × Nat)) (fuel : Nat) :
    ∀ (i : Nat) (b : List Char), b.length ≤ (net.printGroups p e fuel i b).length := by
  induction fuel with
  | zero => intro i b; simp [net.printGroups]
  | succ fuel ih =>
    intro i b
    simp only [net.printGroups]
    split
    · exact Nat.le_refl _
    · split
      · split
        · simp
        · rename_i e1 _ _
          have h1 := ih (e1 + 2)
            (net.appendHex (b ++ [':', ':']) (p.getD e1 0 * 256 + p.getD (e1 + 1) 0))
          have h2 := appendHex_length (b ++ [':', ':'])
            (p.getD e1 0 * 256 + p.getD (e1 + 1) 0)
          simp only [List.length_append] at h2
          omega
      · have h1 := ih (i + 2)
          (net.appendHex (if i > 0 then b ++ [':'] else b) (p.getD i 0 * 256 + p.getD (i + 1) 0))
        have h2 := appendHex_length (if i > 0 then b ++ [':'] else b)
          (p.getD i 0 * 256 + p.getD (i + 1) 0)
        have h3 : b.length ≤ (if i > 0 then b ++ [':'] else b).length := by
          split <;> simp
        omega

theorem printGroups_pos (p : List Nat) (e : Option (Nat × Nat)) (fuel i : Nat)
    (b : List Char) (hi : i < net.IPv6len) :
    b.length + 1 ≤ (net.printGroups p e (fuel + 1) i b).length := by
  simp only [net.printGroups]
  rw [if_neg (by omega)]
  split
  · split
    · simp
    · rename_i e1 _ _
      have h1 := printGroups_length p e fuel (e1 + 2)
        (net.appendHex (b ++ [':', ':']) (p.getD e1 0 * 256 + p.getD (e1 + 1) 0))
      have h2 := appendHex_length (b ++ [':', ':']) (p.getD e1 0 * 256 + p.getD (e1 + 1) 0)
      simp only [List.length_append] at h2
      omega
  · have h1 := printGroups_length p e fuel (i + 2)
      (net.appendHex (if i > 0 then b ++ [':'] else b) (p.getD i 0 * 256 + p.getD (i + 1) 0))
    have h2 := appendHex_length (if i > 0 then b ++ [':'] else b)
      (p.getD i 0 * 256 + p.getD (i + 1) 0)
    have h3 : b.length ≤ (if i > 0 then b ++ [':'] else b).length := by
      split <;> simp
    omega

theorem printGroups_ne_nil (p : List Nat) (e : Option (Nat × Nat)) :
    net.printGroups p e 8 0 [] ≠ [] := by
  intro h
  have := printGroups_pos p e 7 0 [] (by decide)
  rw [h] at this
  simp at this

/-- The string form of an IP is never empty. -/
theorem IP_String_ne_empty (ip : net.IP) : ip.String ≠ "" := by
  unfold net.IP.String
  split
  · decide
  · split
    · intro h
      have := congrArg String.data h
      simp at this
    · split
      · decide
      · intro h
        have := congrArg String.data h
        exact printGroups_ne_nil _ _ (by simpa using this)

theorem String_ne_empty (ip : Option net.IP) : net.String ip ≠ "" := by
  cases ip with
  | none => decide
  | some p => exact IP_String_ne_empty p

theorem ParseIP_ne_empty (host : String) (h : net.ParseIP host ≠ none) : host ≠ "" := by
  intro he
  subst he
  exact h rfl

/-- The possible results of `resolveSystemAddr`. -/
theorem resolveSystemAddr_cases (os : net.Host) (c : Cluster) :
    (∃ a, resolveSystemAddr os c = (some a, none)) ∨
    resolveSystemAddr os c = (none, some .errMultipleIPs) ∨
    resolveSystemAddr os c = (none, some .errNoIP) ∨
    (∃ err, os.Interfaces = .error err ∧ resolveSystemAddr os c = (none, some (.netError err))) := by
  unfold resolveSystemAddr
  cases hos : os.Interfaces with
  | error e => exact Or.inr (Or.inr (Or.inr ⟨e, rfl, rfl⟩))
  | ok interfaces =>
    simp only []
    rw [ifaceLoop_eq]
    split
    · exact Or.inr (Or.inl rfl)
    · split
      · exact Or.inr (Or.inr (Or.inl rfl))
      · exact Or.inl ⟨_, rfl⟩

/-- The second and third steps shared by the resolvers (lines 28-40, 65-77 and
85-97): what becomes of the result of `resolveInterfaceAddr` for `host`. -/
theorem resolveListenAddr_of_split (os : net.Host) (specifiedAddr host port : String)
    (hs : net.SplitHostPort specifiedAddr = .ok (host, port)) :
    resolveListenAddr os specifiedAddr =
      match resolveInterfaceAddr os host with
      | (interfaceAddr, none) => (net.String interfaceAddr, port, none)
      | (_, some err) =>
        if err ≠ .errNoSuchInterface then ("", "", some err)
        else if net.ParseIP host = none then ("", "", some .errBadListenAddr)
        else (host, port, none) := by
  simp only [resolveListenAddr, hs]

/-- C12. Whenever `resolveListenAddr` or `resolveAdvertiseAddr` returns without
error, the returned host string is not empty. A spec with an empty host
component, such as `":7946"`, is rejected: with `errBadListenAddr` by
`resolveListenAddr` and with `errBadAdvertiseAddr` by `resolveAdvertiseAddr`. -/
theorem resolved_host_ne_empty (os : net.Host) (c : Cluster) :
    (∀ specifiedAddr host port,
      resolveListenAddr os specifiedAddr = (host, port, none) → host ≠ "") ∧
    (∀ advertiseAddr listenAddrPort host port,
      resolveAdvertiseAddr os c advertiseAddr listenAddrPort = (host, port, none) →
      host ≠ "") ∧
    resolveListenAddr os ":7946" = ("", "", some .errBadListenAddr) ∧
    (∀ listenAddrPort,
      resolveAdvertiseAddr os c ":7946" listenAddrPort = ("", "", some .errBadAdvertiseAddr)) := by
  have tier : ∀ (h p host port : String) (bad : Error) (r : Option net.IP × Option Error),
      (match r with
        | (interfaceAddr, none) => (net.String interfaceAddr, p, none)
        | (_, some err) =>
          if err ≠ .errNoSuchInterface then ("", "", some err)
          else if net.ParseIP h = none then ("", "", some bad)
          else (h, p, none)) = (host, port, (none : Option Error)) → host ≠ "" := by
    intro h p host port bad r hr
    obtain ⟨a, e⟩ := r
    cases e with
    | none =>
      simp only [Prod.mk.injEq] at hr
      rw [← hr.1]
      exact String_ne_empty a
    | some err =>
      simp only at hr
      split at hr
      · simp at hr
      · split at hr
        · simp at hr
        · rename_i hp
          simp only [Prod.mk.injEq] at hr
          rw [← hr.1]
          exact ParseIP_ne_empty h hp
  have empty : resolveInterfaceAddr os "" = (none, some .errNoSuchInterface) := by
    simp [resolveInterfaceAddr, net.InterfaceByName]
  have hs : net.SplitHostPort ":7946" = .ok ("", "7946") := rfl
  have hp : net.ParseIP "" = none := rfl
  refine ⟨?_, ?_, ?_, ?_⟩
  · intro specifiedAddr host port h
    unfold resolveListenAddr at h
    cases hsp : net.SplitHostPort specifiedAddr with
    | error e => simp [hsp] at h
    | ok hp2 =>
      obtain ⟨sh, sp⟩ := hp2
      simp only [hsp] at h
      exact tier sh sp host port _ _ h
  · intro advertiseAddr listenAddrPort host port h
    unfold resolveAdvertiseAddr at h
    split at h
    · cases hsp : net.SplitHostPort advertiseAddr with
      | error e =>
        simp only [hsp, resolveAdvertiseHost] at h
        exact tier _ _ host port _ _ h
      | ok hp2 =>
        obtain ⟨sh, sp⟩ := hp2
        simp only [hsp, resolveAdvertiseHost] at h
        exact tier _ _ host port _ _ h
    · split at h
      · exact tier _ _ host port _ _ h
      · rcases hr : resolveSystemAddr os c with ⟨a, e⟩
        rw [hr] at h
        cases e with
        | some err => simp at h
        | none =>
          simp only [Prod.mk.injEq] at h
          rw [← h.1]
          exact String_ne_empty a
  · simp [resolveListenAddr, hs, empty, hp]
  · intro listenAddrPort
    have hne : (":7946" : String) ≠ "" := by decide
    simp [resolveAdvertiseAddr, hne, hs, resolveAdvertiseHost, empty, hp]

/-- Witness of C12: the listen spec `"eth0:7946"` resolves to the non-empty host
`10.0.0.5`, and `":7946"` is rejected. -/
theorem resolved_host_ne_empty_witness :
    resolveListenAddr exHost "eth0:7946" = ("10.0.0.5", "7946", none) ∧
    ("10.0.0.5" : String) ≠ "" ∧
    resolveListenAddr exHost ":7946" = ("", "", some .errBadListenAddr) :=
  ⟨by decide,
    (resolved_host_ne_empty exHost (exCluster "")).1 "eth0:7946" "10.0.0.5" "7946" (by decide),
    (resolved_host_ne_empty exHost (exCluster "")).2.2.1⟩

/-- The first tier of `resolveAdvertiseAddr` in terms of the host and port it
resolves. -/
theorem advertise_tier1_eq (os : net.Host) (c : Cluster)
    (advertiseAddr listenAddrPort : String) (h : advertiseAddr ≠ "") :
    resolveAdvertiseAddr os c advertiseAddr listenAddrPort =
      resolveAdvertiseHost os (advertiseHostOf advertiseAddr)
        (advertisePortOf advertiseAddr listenAddrPort) := by
  unfold resolveAdvertiseAddr advertiseHostOf advertisePortOf
  rw [if_pos h]
  cases hs : net.SplitHostPort advertiseAddr with
  | error e => rfl
  | ok hp =>
    obtain ⟨a, b⟩ := hp
    rfl

/-- C13. When `advertiseAddr` and `config.DefaultAdvertiseAddr` are both empty,
`resolveAdvertiseAddr` returns the string form of `a` with `listenAddrPort` if
`resolveSystemAddr` returns `a`, and otherwise returns exactly the error of
`resolveSystemAddr` with empty host and port; that error is `errMultipleIPs`,
`errNoIP` or the error of `net.Interfaces()`. -/
theorem resolveAdvertiseAddr_tier3 (os : net.Host) (c : Cluster) (listenAddrPort : String)
    (hd : c.config.DefaultAdvertiseAddr = "") :
    (∀ a, resolveSystemAddr os c = (some a, none) →
      resolveAdvertiseAddr os c "" listenAddrPort = (a.String, listenAddrPort, none)) ∧
    (∀ r err, resolveSystemAddr os c = (r, some err) →
      resolveAdvertiseAddr os c "" listenAddrPort = ("", "", some err) ∧
      (err = .errMultipleIPs ∨ err = .errNoIP ∨
        ∃ e, os.Interfaces = .error e ∧ err = .netError e)) ∧
    ((∃ a, resolveSystemAddr os c = (some a, none)) ∨
      ∃ r err, resolveSystemAddr os c = (r, some err)) := by
  refine ⟨?_, ?_, ?_⟩
  · intro a h
    simp [resolveAdvertiseAddr, hd, h, net.String]
  · intro r err h
    refine ⟨by simp [resolveAdvertiseAddr, hd, h], ?_⟩
    rcases resolveSystemAddr_cases os c with ⟨a, k⟩ | k | k | ⟨e, ke, k⟩
    · rw [k] at h
      simp at h
    · rw [k] at h
      simp only [Prod.mk.injEq, Option.some.injEq] at h
      exact Or.inl h.2.symm
    · rw [k] at h
      simp only [Prod.mk.injEq, Option.some.injEq] at h
      exact Or.inr (Or.inl h.2.symm)
    · rw [k] at h
      simp only [Prod.mk.injEq, Option.some.injEq] at h
      exact Or.inr (Or.inr ⟨e, ke, h.2.symm⟩)
  · rcases resolveSystemAddr_cases os c with ⟨a, k⟩ | k | k | ⟨e, _, k⟩
    · exact Or.inl ⟨a, k⟩
    · exact Or.inr ⟨_, _, k⟩
    · exact Or.inr ⟨_, _, k⟩
    · exact Or.inr ⟨_, _, k⟩

/-- Witness of C13: with one qualifying address (`10.0.0.5` on `eth0`) the
advertise address is `10.0.0.5:7946`; with two qualifying interfaces the error
`errMultipleIPs` of autodetection is returned. -/
theorem resolveAdvertiseAddr_tier3_witness :
    resolveAdvertiseAddr exHost (exCluster "") "" "7946" = ("10.0.0.5", "7946", none) ∧
    resolveAdvertiseAddr exHostPlain (exCluster "") "" "7946" =
      ("", "", some .errMultipleIPs) :=
  ⟨(resolveAdvertiseAddr_tier3 exHost (exCluster "") "7946" rfl).1 (net.IPv4 10 0 0 5)
      (by decide),
    ((resolveAdvertiseAddr_tier3 exHostPlain (exCluster "") "7946" rfl).2.1 none
      .errMultipleIPs (by decide)).1⟩

theorem dtoiLoop_append_colon (t : List Char) (s : List Char) :
    ∀ n, net.dtoiLoop (s ++ ':' :: t) n =
      (net.dtoiLoop s n).map (fun r => (r.1, r.2 ++ ':' :: t)) := by
  induction s with
  | nil =>
    intro n
    simp [net.dtoiLoop]
  | cons c s ih =>
    intro n
    simp only [List.cons_append, net.dtoiLoop]
    split
    · split
      · rfl
      · exact ih _
    · rfl

theorem dtoi_append_colon (t s : List Char) :
    net.dtoi (s ++ ':' :: t) = (net.dtoi s).map (fun r => (r.1, r.2 ++ ':' :: t)) := by
  unfold net.dtoi
  rw [dtoiLoop_append_colon]
  cases h : net.dtoiLoop s 0 with
  | none => rfl
  | some r =>
    obtain ⟨n, rest⟩ := r
    simp only [Option.map_some', List.length_append, List.length_cons]
    by_cases hl : rest.length = s.length
    · simp [hl]
    · have : ¬ rest.length + (t.length + 1) = s.length + (t.length + 1) := by omega
      simp [hl, this]

theorem parseIPv4Loop_append_colon (t : List Char) (k : Nat) :
    ∀ (j : Nat) (s : List Char) (p : List Nat),
      net.parseIPv4Loop k j (s ++ ':' :: t) p =
        (net.parseIPv4Loop k j s p).map (fun r => (r.1, r.2 ++ ':' :: t)) := by
  induction k with
  | zero => intro j s p; simp [net.parseIPv4Loop]
  | succ k ih =>
    intro j s p
    cases s with
    | nil =>
      simp only [List.nil_append, net.parseIPv4Loop]
      by_cases hj : j > 0
      · simp [hj]
      · have hd : net.dtoi (':' :: t) = none := by
          simp [net.dtoi, net.dtoiLoop]
        simp [hj, hd]
    | cons c s =>
      have step : ∀ (u : List Char),
          (match net.dtoi (u ++ ':' :: t) with
            | none => none
            | some (n, rest) =>
              if n > 0xFF then none else net.parseIPv4Loop k (j + 1) rest (p ++ [n])) =
          Option.map (fun r => (r.1, r.2 ++ ':' :: t))
            (match net.dtoi u with
              | none => none
              | some (n, rest) =>
                if n > 0xFF then none else net.parseIPv4Loop k (j + 1) rest (p ++ [n])) := by
        intro u
        rw [dtoi_append_colon]
        cases hd : net.dtoi u with
        | none => rfl
        | some r =>
          obtain ⟨n, rest⟩ := r
          simp only [Option.map_some']
          split
          · rfl
          · exact ih _ _ _
      simp only [List.cons_append, net.parseIPv4Loop, List.head?_cons, List.cons_ne_nil,
        if_false, List.drop_succ_cons, List.drop_zero]
      by_cases hj : j > 0
      · by_cases hc : c = '.'
        · simp only [hj, hc, if_true, ne_eq, not_true_eq_false, and_false, if_false]
          exact step s
        · simp [hj, hc]
      · simp only [hj, if_false, false_and]
        exact step (c :: s)

/-- No string with a `:` parses as a dotted-decimal IPv4 address. -/
theorem parseIPv4_append_colon (s t : List Char) : net.parseIPv4 (s ++ ':' :: t) = none := by
  unfold net.parseIPv4
  rw [parseIPv4Loop_append_colon]
  cases net.parseIPv4Loop net.IPv4len 0 s [] with
  | none => rfl
  | some r =>
    obtain ⟨p, rest⟩ := r
    simp

theorem dtoiLoop_digits (s : List Char) :
    ∀ (n m : Nat) (rest : List Char), net.dtoiLoop s n = some (m, rest) →
      ∃ ds, s = ds ++ rest ∧ ∀ c ∈ ds, c ≠ '.' ∧ c ≠ ':' := by
  induction s with
  | nil =>
    intro n m rest h
    simp [net.dtoiLoop] at h
    exact ⟨[], by simp [h.2], by simp⟩
  | cons c s ih =>
    intro n m rest h
    simp only [net.dtoiLoop] at h
    split at h
    · rename_i hdig
      split at h
      · simp at h
      · obtain ⟨ds, hds, hall⟩ := ih _ _ _ h
        refine ⟨c :: ds, by simp [hds], ?_⟩
        intro x hx
        rcases List.mem_cons.1 hx with rfl | hx
        · constructor
          · intro hc
            rw [hc] at hdig
            revert hdig
            decide
          · intro hc
            rw [hc] at hdig
            revert hdig
            decide
        · exact hall x hx
    · simp at h
      exact ⟨[], by simp [h.2], by simp⟩

/-- A dotted-decimal IPv4 literal starts with digits followed by a dot. -/
theorem parseIPv4_shape (s : List Char) (h : net.parseIPv4 s ≠ none) :
    ∃ ds rest, s = ds ++ '.' :: rest ∧ ∀ c ∈ ds, c ≠ '.' ∧ c ≠ ':' := by
  unfold net.parseIPv4 at h
  have e4 : net.IPv4len = 3 + 1 := rfl
  rw [e4] at h
  simp only [net.parseIPv4Loop] at h
  by_cases hs : s = []
  · simp [hs] at h
  · simp only [hs, if_false, Nat.lt_irrefl, false_and, gt_iff_lt] at h
    cases hd : net.dtoi s with
    | none => simp [hd] at h
    | some r =>
      obtain ⟨n, rest⟩ := r
      simp only [hd] at h
      have hloop : net.dtoiLoop s 0 = some (n, rest) := by
        unfold net.dtoi at hd
        cases hl : net.dtoiLoop s 0 with
        | none => simp [hl] at hd
        | some r2 =>
          obtain ⟨n2, rest2⟩ := r2
          simp only [hl] at hd
          split at hd
          · simp at hd
          · simpa using hd
      obtain ⟨ds, hds, hall⟩ := dtoiLoop_digits s 0 n rest hloop
      by_cases hn : n > 0xFF
      · simp [hn] at h
      · simp only [hn, if_false] at h
        cases rest with
        | nil => simp at h
        | cons x rest2 =>
          by_cases hx : x = '.'
          · subst hx
            exact ⟨ds, rest2, hds, hall⟩
          · simp [hx] at h

theorem parseIPScan_skip (whole : List Char) (ds : List Char) (rest : List Char)
    (hall : ∀ c ∈ ds, c ≠ '.' ∧ c ≠ ':') :
    net.parseIPScan whole (ds ++ '.' :: rest) = net.parseIPv4 whole := by
  induction ds with
  | nil => simp [net.parseIPScan]
  | cons c ds ih =>
    have hc := hall c (List.mem_cons_self _ _)
    simp only [List.cons_append, net.parseIPScan, hc.1, hc.2, if_false]
    exact ih (fun x hx => hall x (List.mem_cons_of_mem _ hx))

/-- A dotted-decimal IPv4 literal followed by `:port` is not a literal IP. -/
theorem ParseIP_ipv4_port (ip port : String) (h : net.parseIPv4 ip.data ≠ none) :
    net.ParseIP (ip ++ ":" ++ port) = none := by
  obtain ⟨ds, rest, hs, hall⟩ := parseIPv4_shape ip.data h
  have hd : (ip ++ ":" ++ port).data = ds ++ '.' :: (rest ++ ':' :: port.data) := by
    simp [String.data_append, hs]
  unfold net.ParseIP
  rw [hd, parseIPScan_skip _ ds _ hall]
  have : ds ++ '.' :: (rest ++ ':' :: port.data) = (ds ++ '.' :: rest) ++ ':' :: port.data := by
    simp
  rw [this]
  exact parseIPv4_append_colon _ _

/-- The second tier of `resolveAdvertiseAddr` (lines 80-98) in terms of the
result of `resolveInterfaceAddr` for the default advertise address. -/
theorem advertise_tier2_eq (os : net.Host) (c : Cluster) (listenAddrPort : String)
    (hd : c.config.DefaultAdvertiseAddr ≠ "") :
    resolveAdvertiseAddr os c "" listenAddrPort =
      match resolveInterfaceAddr os c.config.DefaultAdvertiseAddr with
      | (interfaceAddr, none) => (net.String interfaceAddr, listenAddrPort, none)
      | (_, some err) =>
        if err ≠ .errNoSuchInterface then ("", "", some err)
        else if net.ParseIP c.config.DefaultAdvertiseAddr = none then
          ("", "", some .errBadDefaultAdvertiseAddr)
        else (c.config.DefaultAdvertiseAddr, listenAddrPort, none) := by
  simp only [resolveAdvertiseAddr, hd, ne_eq, not_true_eq_false, if_false, not_false_eq_true,
    if_true]

/-- C14. When `advertiseAddr` is empty and `config.DefaultAdvertiseAddr` is not,
`resolveAdvertiseAddr` does not run autodetection: its result is the same for
every subnet provider, and is decided by the default alone. It returns the
address of the interface the default names, or the default itself when it names
no interface and is a literal IP, paired with exactly `listenAddrPort`; it fails
with `errBadDefaultAdvertiseAddr` when the default names no interface and is no
literal IP. In particular a default made of a dotted-decimal IPv4 literal, a
colon and a port, such as `"10.0.0.5:7946"`, naming no interface, is rejected
with `errBadDefaultAdvertiseAddr`. -/
theorem resolveAdvertiseAddr_tier2 (os : net.Host) (c : Cluster) (listenAddrPort : String)
    (hd : c.config.DefaultAdvertiseAddr ≠ "") :
    (∀ c2 : Cluster, c2.config.DefaultAdvertiseAddr = c.config.DefaultAdvertiseAddr →
      resolveAdvertiseAddr os c2 "" listenAddrPort =
        resolveAdvertiseAddr os c "" listenAddrPort) ∧
    (∀ a, resolveInterfaceAddr os c.config.DefaultAdvertiseAddr = (some a, none) →
      resolveAdvertiseAddr os c "" listenAddrPort = (a.String, listenAddrPort, none)) ∧
    ((∃ err, net.InterfaceByName os c.config.DefaultAdvertiseAddr = .error err) →
      (net.ParseIP c.config.DefaultAdvertiseAddr ≠ none →
        resolveAdvertiseAddr os c "" listenAddrPort =
          (c.config.DefaultAdvertiseAddr, listenAddrPort, none)) ∧
      (net.ParseIP c.config.DefaultAdvertiseAddr = none →
        resolveAdvertiseAddr os c "" listenAddrPort =
          ("", "", some .errBadDefaultAdvertiseAddr)) ∧
      (∀ ip port : String, c.config.DefaultAdvertiseAddr = ip ++ ":" ++ port →
        net.parseIPv4 ip.data ≠ none →
        resolveAdvertiseAddr os c "" listenAddrPort =
          ("", "", some .errBadDefaultAdvertiseAddr))) ∧
    (∀ host port, resolveAdvertiseAddr os c "" listenAddrPort = (host, port, none) →
      port = listenAddrPort) := by
  have key := advertise_tier2_eq os c listenAddrPort hd
  refine ⟨?_, ?_, ?_, ?_⟩
  · intro c2 h2
    rw [key, advertise_tier2_eq os c2 listenAddrPort (by rw [h2]; exact hd), h2]
  · intro a h
    rw [key, h]
    rfl
  · rintro ⟨err, hi⟩
    have hr : resolveInterfaceAddr os c.config.DefaultAdvertiseAddr =
        (none, some .errNoSuchInterface) := by
      simp [resolveInterfaceAddr, hi]
    have bad : net.ParseIP c.config.DefaultAdvertiseAddr = none →
        resolveAdvertiseAddr os c "" listenAddrPort =
          ("", "", some .errBadDefaultAdvertiseAddr) := by
      intro hp
      rw [key, hr]
      simp [hp]
    refine ⟨?_, bad, ?_⟩
    · intro hp
      rw [key, hr]
      simp [hp]
    · intro ip port hform hip
      apply bad
      rw [hform]
      exact ParseIP_ipv4_port ip port hip
  · intro host port h
    rw [key] at h
    rcases hr : resolveInterfaceAddr os c.config.DefaultAdvertiseAddr with ⟨a, e⟩
    rw [hr] at h
    cases e with
    | none =>
      simp only [Prod.mk.injEq] at h
      exact h.2.1.symm
    | some err =>
      simp only at h
      split at h
      · simp at h
      · split at h
        · simp at h
        · simp only [Prod.mk.injEq] at h
          exact h.2.1.symm

/-- Witness of C14: the default `"10.0.0.5:7946"` is rejected with
`errBadDefaultAdvertiseAddr`, although autodetection alone would succeed on this
host; the default `"eth0"` resolves to `10.0.0.5` with the listen port. -/
theorem resolveAdvertiseAddr_tier2_witness :
    resolveAdvertiseAddr exHost (exCluster "10.0.0.5:7946") "" "7946" =
      ("", "", some .errBadDefaultAdvertiseAddr) ∧
    resolveAdvertiseAddr exHost (exCluster "") "" "7946" = ("10.0.0.5", "7946", none) ∧
    resolveAdvertiseAddr exHost (exCluster "eth0") "" "7946" = ("10.0.0.5", "7946", none) :=
  ⟨((resolveAdvertiseAddr_tier2 exHost (exCluster "10.0.0.5:7946") "7946" (by decide)).2.2.1
      ⟨_, rfl⟩).2.2 "10.0.0.5" "7946" rfl (by decide),
    by decide,
    (resolveAdvertiseAddr_tier2 exHost (exCluster "eth0") "7946" (by decide)).2.1
      (net.IPv4 10 0 0 5) (by decide)⟩

/-- The error of a tier (lines 28-40, 65-77, 85-97) is never `errNoSuchInterface`,
whatever `resolveInterfaceAddr` returned, provided the error `bad` of the tier
is not. -/
theorem tier_error_ne (h p : String) (bad : Error) (hbad : bad ≠ .errNoSuchInterface)
    (r : Option net.IP × Option Error) :
    (match r with
      | (interfaceAddr, none) => (net.String interfaceAddr, p, (none : Option Error))
      | (_, some err) =>
        if err ≠ .errNoSuchInterface then ("", "", some err)
        else if net.ParseIP h = none then ("", "", some bad)
        else (h, p, none)).2.2 ≠ some .errNoSuchInterface := by
  obtain ⟨a, e⟩ := r
  cases e with
  | none => simp
  | some err =>
    simp only
    split
    · rename_i hne
      simpa using hne
    · split
      · simpa using hbad
      · simp

/-- C15. Neither `resolveListenAddr` nor `resolveAdvertiseAddr` ever returns
`errNoSuchInterface`. Whenever the interface lookup reports it, the host is
parsed as a literal IP: the outcome is the host itself with its port, or the
error of the tier (`errBadListenAddr`, `errBadAdvertiseAddr`,
`errBadDefaultAdvertiseAddr`). -/
theorem errNoSuchInterface_not_returned (os : net.Host) (c : Cluster) :
    (∀ specifiedAddr, (resolveListenAddr os specifiedAddr).2.2 ≠ some .errNoSuchInterface) ∧
    (∀ advertiseAddr listenAddrPort,
      (resolveAdvertiseAddr os c advertiseAddr listenAddrPort).2.2 ≠
        some .errNoSuchInterface) ∧
    (∀ specifiedAddr host port, net.SplitHostPort specifiedAddr = .ok (host, port) →
      (resolveInterfaceAddr os host).2 = some .errNoSuchInterface →
      resolveListenAddr os specifiedAddr =
        if net.ParseIP host = none then ("", "", some .errBadListenAddr)
        else (host, port, none)) ∧
    (∀ advertiseAddr listenAddrPort, advertiseAddr ≠ "" →
      (resolveInterfaceAddr os (advertiseHostOf advertiseAddr)).2 = some .errNoSuchInterface →
      resolveAdvertiseAddr os c advertiseAddr listenAddrPort =
        if net.ParseIP (advertiseHostOf advertiseAddr) = none then
          ("", "", some .errBadAdvertiseAddr)
        else (advertiseHostOf advertiseAddr, advertisePortOf advertiseAddr listenAddrPort,
          none)) ∧
    (∀ listenAddrPort, c.config.DefaultAdvertiseAddr ≠ "" →
      (resolveInterfaceAddr os c.config.DefaultAdvertiseAddr).2 = some .errNoSuchInterface →
      resolveAdvertiseAddr os c "" listenAddrPort =
        if net.ParseIP c.config.DefaultAdvertiseAddr = none then
          ("", "", some .errBadDefaultAdvertiseAddr)
        else (c.config.DefaultAdvertiseAddr, listenAddrPort, none)) := by
  refine ⟨?_, ?_, ?_, ?_, ?_⟩
  · intro specifiedAddr
    unfold resolveListenAddr
    cases hs : net.SplitHostPort specifiedAddr with
    | error e => simp
    | ok hp =>
      obtain ⟨host, port⟩ := hp
      exact tier_error_ne host port _ (by decide) _
  · intro advertiseAddr listenAddrPort
    by_cases ha : advertiseAddr ≠ ""
    · rw [advertise_tier1_eq os c advertiseAddr listenAddrPort ha]
      exact tier_error_ne _ _ _ (by decide) _
    · have ha2 : advertiseAddr = "" := by simpa using ha
      subst ha2
      by_cases hd : c.config.DefaultAdvertiseAddr ≠ ""
      · rw [advertise_tier2_eq os c listenAddrPort hd]
        exact tier_error_ne _ _ _ (by decide) _
      · have hd2 : c.config.DefaultAdvertiseAddr = "" := by simpa using hd
        rcases resolveSystemAddr_cases os c with ⟨a, k⟩ | k | k | ⟨e, _, k⟩ <;>
          simp [resolveAdvertiseAddr, hd2, k]
  · intro specifiedAddr host port hs hr
    rw [resolveListenAddr_of_split os specifiedAddr host port hs]
    rcases hri : resolveInterfaceAddr os host with ⟨a, e⟩
    rw [hri] at hr
    simp only at hr
    subst hr
    simp
  · intro advertiseAddr listenAddrPort ha hr
    rw [advertise_tier1_eq os c advertiseAddr listenAddrPort ha]
    unfold resolveAdvertiseHost
    rcases hri : resolveInterfaceAddr os (advertiseHostOf advertiseAddr) with ⟨a, e⟩
    rw [hri] at hr
    simp only at hr
    subst hr
    simp
  · intro listenAddrPort hd hr
    rw [advertise_tier2_eq os c listenAddrPort hd]
    rcases hri : resolveInterfaceAddr os c.config.DefaultAdvertiseAddr with ⟨a, e⟩
    rw [hri] at hr
    simp only at hr
    subst hr
    simp

/-- Witness of C15: the lookup of `203.0.113.9` reports `errNoSuchInterface`, and
the listen spec `"203.0.113.9:7946"` resolves to the literal IP; the lookup of
`not-an-addr` reports it too, and the listen spec fails with `errBadListenAddr`. -/
theorem errNoSuchInterface_not_returned_witness :
    resolveInterfaceAddr exHost "203.0.113.9" = (none, some .errNoSuchInterface) ∧
    resolveListenAddr exHost "203.0.113.9:7946" = ("203.0.113.9", "7946", none) ∧
    resolveListenAddr exHost "not-an-addr:7946" = ("", "", some .errBadListenAddr) :=
  ⟨by decide,
    (errNoSuchInterface_not_returned exHost (exCluster "")).2.2.1 "203.0.113.9:7946"
      "203.0.113.9" "7946" rfl (by decide),
    (errNoSuchInterface_not_returned exHost (exCluster "")).2.2.1 "not-an-addr:7946"
      "not-an-addr" "7946" rfl (by decide)⟩

/-- C17. When the host names an existing interface and its lookup fails (more
than one address of a version, no usable address, or an error listing its
addresses), the error is not `errNoSuchInterface`, and `resolveListenAddr`, the
first tier and the second tier of `resolveAdvertiseAddr` return that very error
with empty host and port, whether or not the host would parse as a literal IP. -/
theorem lookup_error_propagates (os : net.Host) (c : Cluster) (host : String)
    (intf : net.Interface) (r : Option net.IP) (err : Error)
    (hi : net.InterfaceByName os host = .ok intf)
    (hr : resolveInterfaceAddr os host = (r, some err)) :
    err ≠ .errNoSuchInterface ∧
    (∀ specifiedAddr port, net.SplitHostPort specifiedAddr = .ok (host, port) →
      resolveListenAddr os specifiedAddr = ("", "", some err)) ∧
    (∀ advertiseAddr listenAddrPort, advertiseAddr ≠ "" →
      advertiseHostOf advertiseAddr = host →
      resolveAdvertiseAddr os c advertiseAddr listenAddrPort = ("", "", some err)) ∧
    (∀ listenAddrPort, c.config.DefaultAdvertiseAddr = host →
      resolveAdvertiseAddr os c "" listenAddrPort = ("", "", some err)) := by
  have hne : err ≠ .errNoSuchInterface := by
    rcases resolveInterfaceAddr_cases os host with ⟨⟨e, he⟩, _⟩ | ⟨_, k⟩
    · rw [hi] at he
      simp at he
    · rcases k with ⟨a, k⟩ | ⟨e, k⟩ | k | k | k <;>
        · rw [k] at hr
          simp only [Prod.mk.injEq, Option.some.injEq] at hr
          first
            | exact absurd hr.2 (by simp)
            | (rw [← hr.2]; simp)
  have hhost : host ≠ "" := by
    intro h0
    subst h0
    simp [net.InterfaceByName] at hi
  refine ⟨hne, ?_, ?_, ?_⟩
  · intro specifiedAddr port hs
    rw [resolveListenAddr_of_split os specifiedAddr host port hs, hr]
    simp [hne]
  · intro advertiseAddr listenAddrPort ha hh
    rw [advertise_tier1_eq os c advertiseAddr listenAddrPort ha, hh]
    unfold resolveAdvertiseHost
    rw [hr]
    simp [hne]
  · intro listenAddrPort hd
    rw [advertise_tier2_eq os c listenAddrPort (by rw [hd]; exact hhost), hd, hr]
    simp [hne]

/-- Witness of C17: the interface named `10.0.0.9` carries two IPv4 addresses; the
listen spec `"10.0.0.9:7946"`, the advertise address `"10.0.0.9"` and the default
`"10.0.0.9"` all fail with the ambiguity error of the lookup, although
`10.0.0.9` reads as a literal IP. -/
theorem lookup_error_propagates_witness :
    net.ParseIP "10.0.0.9" = some (net.IPv4 10 0 0 9) ∧
    resolveListenAddr exHostLiteral "10.0.0.9:7946" =
      ("", "", some (.moreThanOneIPv4 "10.0.0.9")) ∧
    resolveAdvertiseAddr exHostLiteral (exCluster "") "10.0.0.9" "7946" =
      ("", "", some (.moreThanOneIPv4 "10.0.0.9")) ∧
    resolveAdvertiseAddr exHostLiteral (exCluster "10.0.0.9") "" "7946" =
      ("", "", some (.moreThanOneIPv4 "10.0.0.9")) :=
  ⟨by decide,
    (lookup_error_propagates exHostLiteral (exCluster "") "10.0.0.9" exLiteral none
      (.moreThanOneIPv4 "10.0.0.9") rfl (by decide)).2.1 "10.0.0.9:7946" "7946" rfl,
    (lookup_error_propagates exHostLiteral (exCluster "") "10.0.0.9" exLiteral none
      (.moreThanOneIPv4 "10.0.0.9") rfl (by decide)).2.2.1 "10.0.0.9" "7946" (by decide) rfl,
    (lookup_error_propagates exHostLiteral (exCluster "10.0.0.9") "10.0.0.9" exLiteral none
      (.moreThanOneIPv4 "10.0.0.9") rfl (by decide)).2.2.2 "7946" rfl⟩

/-- C18. For a string that splits as `host:port`, the first tier of
`resolveAdvertiseAddr` resolves exactly as `resolveListenAddr`: the result is
that of `resolveListenAddr`, host, port and error, with the one error
`errBadListenAddr` replaced by `errBadAdvertiseAddr`. -/
theorem resolveAdvertiseAddr_as_listen (os : net.Host) (c : Cluster)
    (s listenAddrPort host port : String) (hs : net.SplitHostPort s = .ok (host, port)) :
    resolveAdvertiseAddr os c s listenAddrPort = asAdvertiseResult (resolveListenAddr os s) := by
  have hne : s ≠ "" := by
    intro h0
    subst h0
    have he : net.SplitHostPort "" = .error ⟨"missing port in address"⟩ := rfl
    rw [he] at hs
    cases hs
  rw [advertise_tier1_eq os c s listenAddrPort hne,
    resolveListenAddr_of_split os s host port hs]
  have hh : advertiseHostOf s = host := by simp [advertiseHostOf, hs]
  have hp : advertisePortOf s listenAddrPort = port := by simp [advertisePortOf, hs]
  rw [hh, hp]
  unfold resolveAdvertiseHost
  rcases resolveInterfaceAddr_cases os host with ⟨_, k⟩ | ⟨_, k⟩
  · rw [k]
    by_cases hpi : net.ParseIP host = none <;> simp [hpi, asAdvertiseResult]
  · rcases k with ⟨a, k⟩ | ⟨e, k⟩ | k | k | k <;>
      · rw [k]
        simp [asAdvertiseResult]

/-- Witness of C18: `"eth0:7946"` gives `("10.0.0.5", "7946")` in both resolvers,
and `"not-an-addr:7946"` fails with `errBadListenAddr` in one and
`errBadAdvertiseAddr` in the other. -/
theorem resolveAdvertiseAddr_as_listen_witness :
    resolveAdvertiseAddr exHost (exCluster "") "eth0:7946" "2377" =
      asAdvertiseResult (resolveListenAddr exHost "eth0:7946") ∧
    resolveListenAddr exHost "eth0:7946" = ("10.0.0.5", "7946", none) ∧
    resolveAdvertiseAddr exHost (exCluster "") "eth0:7946" "2377" =
      ("10.0.0.5", "7946", none) ∧
    resolveListenAddr exHost "not-an-addr:7946" = ("", "", some .errBadListenAddr) ∧
    resolveAdvertiseAddr exHost (exCluster "") "not-an-addr:7946" "2377" =
      ("", "", some .errBadAdvertiseAddr) :=
  ⟨resolveAdvertiseAddr_as_listen exHost (exCluster "") "eth0:7946" "2377" "eth0" "7946" rfl,
    by decide, by decide, by decide, by decide⟩

/-- C16. In a snapshot where no up, non-loopback interface has a global-unicast
address outside the managed subnets of the matching version (it has no
global-unicast address, or all of them lie in managed subnets, or its addresses
cannot be listed), `resolveSystemAddr` fails with `errNoIP`. -/
theorem resolveSystemAddr_noIP (os : net.Host) (c : Cluster)
    (interfaces : List net.Interface) (hos : os.Interfaces = .ok interfaces)
    (h : ∀ k ∈ interfaces, Active k →
      qualifyingIPs c.config.NetworkSubnetsProvider.V4Subnets
        c.config.NetworkSubnetsProvider.V6Subnets (listedAddrs k) = []) :
    resolveSystemAddr os c = (none, some .errNoIP) := by
  have hskip : ∀ k ∈ interfaces, ifaceOutcome c.config.NetworkSubnetsProvider.V4Subnets
      c.config.NetworkSubnetsProvider.V6Subnets k = .skip := by
    intro k hk
    apply ifaceOutcome_skip_of_no_candidate
    unfold candidateIPs
    by_cases hA : Active k
    · rw [if_pos hA]
      have := h k hk hA
      unfold listedAddrs at this
      cases hadd : k.Addrs with
      | error e => rfl
      | ok addrs =>
        rw [hadd] at this
        exact this
    · rw [if_neg hA]
  simp only [resolveSystemAddr, hos]
  have := ifaceLoop_append_skip c.config.NetworkSubnetsProvider.V4Subnets
    c.config.NetworkSubnetsProvider.V6Subnets interfaces [] hskip none
  rw [List.append_nil] at this
  rw [this]
  simp [resolveSystemAddrIfaceLoop]

/-- Witness of C16: on the host with `lo` and `docker0`, whose only global-unicast
address `172.17.0.1` lies in a subnet of `V4Subnets()`, autodetection fails with
`errNoIP`. -/
theorem resolveSystemAddr_noIP_witness :
    resolveSystemAddr exHostManaged (exCluster "") = (none, some .errNoIP) :=
  resolveSystemAddr_noIP exHostManaged (exCluster "") [exLo, exDocker0] rfl (by decide)

/-- The nested loop in terms of `specCombine`, with the outcomes computed by the
address loop of the source. -/
theorem ifaceLoop_eq_specCombine (v4 v6 : List net.IPNet) (l : List net.Interface) :
    resolveSystemAddrIfaceLoop v4 v6 l none = specCombine (l.map (ifaceOutcome v4 v6)) := by
  rw [ifaceLoop_eq]
  unfold specCombine candidatesOf
  have e1 : (l.map (ifaceOutcome v4 v6)).any (fun o => (o.fail?).isSome) =
      l.any (fun intf => ((ifaceOutcome v4 v6 intf).fail?).isSome) := by
    induction l with
    | nil => rfl
    | cons x t ih => simp only [List.map_cons, List.any_cons, ih]
  have e2 : (l.map (ifaceOutcome v4 v6)).filterMap IfaceOutcome.candidate? =
      l.filterMap (fun intf => (ifaceOutcome v4 v6 intf).candidate?) := by
    clear e1
    induction l with
    | nil => rfl
    | cons x t ih => simp only [List.map_cons, List.filterMap_cons, ih]
  rw [e1, e2]
  rfl

theorem ifaceOutcome_of_not_active (v4 v6 : List net.IPNet) (intf : net.Interface)
    (h : ¬ Active intf) : ifaceOutcome v4 v6 intf = .skip := by
  unfold ifaceOutcome
  rw [if_pos]
  by_contra hc
  exact h ((active_iff intf).2 hc)

/-- Interfaces that are down or loopback classify as skip, so they can be left
out of the list of classifications. -/
theorem specCombine_filter_active (v4 v6 : List net.IPNet) (l : List net.Interface) :
    specCombine (l.map (ifaceOutcome v4 v6)) =
      specCombine ((l.filter fun intf => decide (Active intf)).map (ifaceOutcome v4 v6)) := by
  have hany : ∀ l : List net.Interface,
      ((l.map (ifaceOutcome v4 v6)).any (fun o => (o.fail?).isSome) =
        (((l.filter fun intf => decide (Active intf)).map
          (ifaceOutcome v4 v6)).any fun o => (o.fail?).isSome)) ∧
      (l.map (ifaceOutcome v4 v6)).filterMap IfaceOutcome.candidate? =
        ((l.filter fun intf => decide (Active intf)).map
          (ifaceOutcome v4 v6)).filterMap IfaceOutcome.candidate? := by
    intro l
    induction l with
    | nil => simp
    | cons x t ih =>
      obtain ⟨i1, i2⟩ := ih
      by_cases hA : Active x
      · have ef : (List.filter (fun intf => decide (Active intf)) (x :: t)) =
            x :: List.filter (fun intf => decide (Active intf)) t := by
          simp [List.filter_cons, hA]
        rw [ef]
        simp only [List.map_cons, List.any_cons, List.filterMap_cons, i1, i2]
        exact ⟨trivial, trivial⟩
      · have e := ifaceOutcome_of_not_active v4 v6 x hA
        have ef : (List.filter (fun intf => decide (Active intf)) (x :: t)) =
            List.filter (fun intf => decide (Active intf)) t := by
          simp [List.filter_cons, hA]
        have f1 : (IfaceOutcome.skip).fail? = none := rfl
        have f2 : (IfaceOutcome.skip).candidate? = none := rfl
        rw [ef]
        simp only [List.map_cons, List.any_cons, List.filterMap_cons, e, f1, f2,
          Option.isSome_none, Bool.false_or]
        exact ⟨i1, i2⟩
  obtain ⟨i1, i2⟩ := hany l
  unfold specCombine
  rw [i1, i2]

/-- C19. The nested labeled loop of `resolveSystemAddr` equals the refactored
form on every snapshot and subnet provider: a per-interface classifier, followed
by an outer iteration over the up, non-loopback interfaces that returns
`errMultipleIPs` if any interface classifies as an error or a second candidate
appears, `errNoIP` if there is no candidate, and the single candidate otherwise.
The classifier returns skip, one candidate or an error; its only error is
`errMultipleIPs`, and its candidate is the IPv4 global-unicast address of the
interface if it has one, else its IPv6 one. -/
theorem resolveSystemAddr_eq_refactored (os : net.Host) (c : Cluster) :
    resolveSystemAddr os c = refactoredResolveSystemAddr os c ∧
    (∀ intf err, ifaceOutcome c.config.NetworkSubnetsProvider.V4Subnets
        c.config.NetworkSubnetsProvider.V6Subnets intf = .fail err →
      err = .errMultipleIPs) ∧
    (∀ intf a, ifaceOutcome c.config.NetworkSubnetsProvider.V4Subnets
        c.config.NetworkSubnetsProvider.V6Subnets intf = .candidate a →
      (ipv4Of (globalUnicastIPs (listedAddrs intf)) ++
        ipv6Of (globalUnicastIPs (listedAddrs intf))).head? = some a) := by
  refine ⟨?_, ?_, ?_⟩
  · unfold resolveSystemAddr refactoredResolveSystemAddr
    cases hos : os.Interfaces with
    | error e => rfl
    | ok interfaces =>
      simp only []
      rw [ifaceLoop_eq_specCombine]
      exact specCombine_filter_active _ _ interfaces
  · intro intf err h
    exact (ifaceOutcome_fail _ _ intf err h).1
  · intro intf a h
    obtain ⟨_, addrs, hadd, _, hhead, _, _⟩ := ifaceOutcome_candidate _ _ intf a h
    have hl : listedAddrs intf = addrs := by simp [listedAddrs, hadd]
    rw [hl]
    exact hhead

/-- Witness of C19: on the host with `lo`, `late0` and `eth1` both forms fail with
`errMultipleIPs`; on the host with `lo`, `mixed0` and `eth1` both return
`192.168.1.7`. -/
theorem resolveSystemAddr_eq_refactored_witness :
    refactoredResolveSystemAddr exHostLate (exCluster "") = (none, some .errMultipleIPs) ∧
    resolveSystemAddr exHostLate (exCluster "") = (none, some .errMultipleIPs) ∧
    refactoredResolveSystemAddr exHostSkip (exCluster "") =
      (some (net.IPv4 192 168 1 7), none) ∧
    resolveSystemAddr exHostSkip (exCluster "") = (some (net.IPv4 192 168 1 7), none) :=
  ⟨by decide,
    (resolveSystemAddr_eq_refactored exHostLate (exCluster "")).1.trans (by decide),
    by decide,
    (resolveSystemAddr_eq_refactored exHostSkip (exCluster "")).1.trans (by decide)⟩

/-- C20. Listing the interfaces of the snapshot in another order, each interface
keeping its own addresses in their order, does not change the result of
`resolveSystemAddr`: the same address, or the same error. -/
theorem resolveSystemAddr_perm (os os2 : net.Host) (c : Cluster)
    (interfaces interfaces2 : List net.Interface)
    (h1 : os.Interfaces = .ok interfaces) (h2 : os2.Interfaces = .ok interfaces2)
    (hp : interfaces.Perm interfaces2) :
    resolveSystemAddr os c = resolveSystemAddr os2 c := by
  simp only [resolveSystemAddr, h1, h2]
  generalize c.config.NetworkSubnetsProvider.V4Subnets = v4
  generalize c.config.NetworkSubnetsProvider.V6Subnets = v6
  rw [ifaceLoop_eq, ifaceLoop_eq]
  simp only [show (none : Option net.IP).toList = [] from rfl, List.nil_append]
  have hc : (candidatesOf v4 v6 interfaces).Perm (candidatesOf v4 v6 interfaces2) :=
    hp.filterMap _
  have hany : (interfaces.any fun intf => ((ifaceOutcome v4 v6 intf).fail?).isSome) =
      (interfaces2.any fun intf => ((ifaceOutcome v4 v6 intf).fail?).isSome) := by
    rw [Bool.eq_iff_iff, List.any_eq_true, List.any_eq_true]
    constructor
    · rintro ⟨x, hx, hf⟩
      exact ⟨x, hp.mem_iff.1 hx, hf⟩
    · rintro ⟨x, hx, hf⟩
      exact ⟨x, hp.mem_iff.2 hx, hf⟩
  rw [hany, hc.length_eq]
  split
  · rfl
  · rename_i hcond
    have hlen : (candidatesOf v4 v6 interfaces2).length ≤ 1 := by omega
    cases hl2 : candidatesOf v4 v6 interfaces2 with
    | nil =>
      rw [hl2] at hc
      rw [List.perm_nil.1 hc]
    | cons a t =>
      cases t with
      | nil =>
        rw [hl2] at hc
        rw [List.perm_singleton.1 hc]
      | cons b t =>
        rw [hl2] at hlen
        simp at hlen

/-- Witness of C20: the host with `lo`, `eth0`, `docker0` and the host listing
them in the reverse order both resolve to `10.0.0.5`. -/
theorem resolveSystemAddr_perm_witness :
    resolveSystemAddr exHost (exCluster "") = resolveSystemAddr exHostReversed (exCluster "") ∧
    resolveSystemAddr exHostReversed (exCluster "") = (some (net.IPv4 10 0 0 5), none) :=
  ⟨resolveSystemAddr_perm exHost exHostReversed (exCluster "") [exLo, exEth0, exDocker0]
      [exDocker0, exEth0, exLo] rfl rfl (List.reverse_perm [exDocker0, exEth0, exLo]),
    by decide⟩

/-- Where the port of a successful `resolveAdvertiseAddr` can be empty although
the listen port is not: only when the advertise address splits into a host and
an empty port. -/
theorem resolveAdvertiseAddr_port_empty_only (os : net.Host) (c : Cluster)
    (advertiseAddr listenAddrPort host : String) (hl : listenAddrPort ≠ "")
    (h : resolveAdvertiseAddr os c advertiseAddr listenAddrPort = (host, "", none)) :
    ∃ advertiseHost, net.SplitHostPort advertiseAddr = .ok (advertiseHost, "") := by
  have tier : ∀ (hh p : String) (bad : Error) (r : Option net.IP × Option Error),
      (match r with
        | (interfaceAddr, none) => (net.String interfaceAddr, p, none)
        | (_, some err) =>
          if err ≠ .errNoSuchInterface then ("", "", some err)
          else if net.ParseIP hh = none then ("", "", some bad)
          else (hh, p, none)) = (host, "", (none : Option Error)) → p = "" := by
    intro hh p bad r hr
    obtain ⟨a, e⟩ := r
    cases e with
    | none =>
      simp only [Prod.mk.injEq] at hr
      exact hr.2.1
    | some err =>
      simp only at hr
      split at hr
      · simp at hr
      · split at hr
        · simp at hr
        · simp only [Prod.mk.injEq] at hr
          exact hr.2.1
  by_cases ha : advertiseAddr ≠ ""
  · rw [advertise_tier1_eq os c advertiseAddr listenAddrPort ha] at h
    have hp := tier _ _ _ _ h
    unfold advertisePortOf at hp
    cases hs : net.SplitHostPort advertiseAddr with
    | error e =>
      rw [hs] at hp
      exact absurd hp hl
    | ok r =>
      obtain ⟨ah, ap⟩ := r
      rw [hs] at hp
      simp only at hp
      subst hp
      exact ⟨ah, rfl⟩
  · have ha2 : advertiseAddr = "" := by simpa using ha
    subst ha2
    by_cases hd : c.config.DefaultAdvertiseAddr ≠ ""
    · rw [advertise_tier2_eq os c listenAddrPort hd] at h
      exact absurd (tier _ _ _ _ h) hl
    · have hd2 : c.config.DefaultAdvertiseAddr = "" := by simpa using hd
      rcases hr : resolveSystemAddr os c with ⟨a, e⟩
      cases e with
      | some err => simp [resolveAdvertiseAddr, hd2, hr] at h
      | none =>
        simp [resolveAdvertiseAddr, hd2, hr] at h
        exact absurd h.2 hl

end cluster
